import Mathlib

/-!
Verification of the tree-building and data-aggregation layer of the
`github-monitor` desktop application.

The development shallowly embeds the Python sources `src-pyloid/server.py`
(endpoint handlers `get_tree` and `get_repo_details`, tree builders
`build_org_tree_lightweight` and `build_repo_details`) and
`src-pyloid/github_client.py` (the `GitHubClient` fetchers) together with the
`TreeNode` record of `models.py`.

The upstream REST API is modelled as a pure oracle (`Upstream`): one response
function per endpoint, returning either a decoded payload or an HTTP error
status with a message (`httpx` raises `HTTPStatusError` for non-2xx responses
via `raise_for_status`).  Paginated `while True` loops are embedded as
fuel-indexed recursion; every theorem that depends on pagination carries an
explicit fuel hypothesis.
-/

/-- A scalar value as stored in a node's `metadata` bag (a Python dict value:
either `None`, a string, a non-negative integer, or a boolean). -/
inductive PyValue where
  | none
  | str (s : String)
  | nat (n : Nat)
  | bool (b : Bool)
deriving Repr, DecidableEq

/-- `models.TreeNode`: the sole entity of the data model.  Python field
defaults: `status=None`, `url=None`, `children=[]`, `metadata={}`,
`hasChildren=False`, `isLoaded=False`. -/
inductive TreeNode where
  | mk (id : String) (name : String) (type : String)
       (status : Option String) (url : Option String)
       (children : List TreeNode) (metadata : List (String × PyValue))
       (hasChildren : Bool) (isLoaded : Bool)

/-- Field projection `TreeNode.id`. -/
def TreeNode.id : TreeNode → String
  | .mk i _ _ _ _ _ _ _ _ => i

/-- Field projection `TreeNode.name`. -/
def TreeNode.name : TreeNode → String
  | .mk _ n _ _ _ _ _ _ _ => n

/-- Field projection `TreeNode.type`. -/
def TreeNode.type : TreeNode → String
  | .mk _ _ t _ _ _ _ _ _ => t

/-- Field projection `TreeNode.status`. -/
def TreeNode.status : TreeNode → Option String
  | .mk _ _ _ s _ _ _ _ _ => s

/-- Field projection `TreeNode.url`. -/
def TreeNode.url : TreeNode → Option String
  | .mk _ _ _ _ u _ _ _ _ => u

/-- Field projection `TreeNode.children`. -/
def TreeNode.children : TreeNode → List TreeNode
  | .mk _ _ _ _ _ c _ _ _ => c

/-- Field projection `TreeNode.metadata`. -/
def TreeNode.metadata : TreeNode → List (String × PyValue)
  | .mk _ _ _ _ _ _ m _ _ => m

/-- Field projection `TreeNode.hasChildren`. -/
def TreeNode.hasChildren : TreeNode → Bool
  | .mk _ _ _ _ _ _ _ h _ => h

/-- Field projection `TreeNode.isLoaded`. -/
def TreeNode.isLoaded : TreeNode → Bool
  | .mk _ _ _ _ _ _ _ _ l => l

/-- An organization object as consumed by `get_tree` (only the `login` key of
the upstream dict is read). -/
structure OrgData where
  login : String
deriving Repr, DecidableEq

/-- A repository object, restricted to the keys `build_org_tree_lightweight`
reads.  `Option` fields are read with `dict.get` (absent key gives `None`);
`is_private` embeds the Python key `"private"` (a Lean keyword), read with
default `False`; `stargazers_count` is read with default `0`. -/
structure RepoData where
  owner_login : String
  name : String
  html_url : String
  description : Option String
  is_private : Bool
  language : Option String
  stargazers_count : Nat
  updated_at : Option String
deriving Repr, DecidableEq

/-- A workflow object, restricted to the keys `build_repo_details` reads. -/
structure WorkflowData where
  id : Nat
  name : String
  state : Option String
  html_url : Option String
  path : Option String
deriving Repr, DecidableEq

/-- A workflow-run object, restricted to the keys `build_repo_details` reads. -/
structure RunData where
  id : Nat
  name : String
  run_number : Nat
  conclusion : Option String
  status : Option String
  html_url : Option String
  created_at : Option String
  updated_at : Option String
deriving Repr, DecidableEq

/-- A self-hosted-runner object, restricted to the keys `build_repo_details`
reads. -/
structure RunnerData where
  id : Nat
  name : String
  status : Option String
  os : Option String
  busy : Option Bool
deriving Repr, DecidableEq

/-- A branch object, restricted to the keys `build_repo_details` reads.
`is_protected` embeds the Python key `"protected"` (a Lean keyword), read
with default `False`. -/
structure BranchData where
  name : String
  is_protected : Bool
deriving Repr, DecidableEq

/-- A pull-request object, restricted to the keys `build_repo_details` reads. -/
structure PRData where
  id : Nat
  number : Nat
  title : String
  state : Option String
  html_url : Option String
  created_at : Option String
  updated_at : Option String
  draft : Bool
deriving Repr, DecidableEq

/-- An item returned by the upstream issues endpoint.  `pull_request` records
whether the item carries the `"pull_request"` key (the marker by which
`GitHubClient.get_issues` recognises pull requests). -/
structure IssueData where
  id : Nat
  number : Nat
  title : String
  state : Option String
  html_url : Option String
  created_at : Option String
  updated_at : Option String
  pull_request : Bool
deriving Repr, DecidableEq

/-- An `httpx.HTTPStatusError`: the non-2xx status of the upstream response
together with the error's message (`str(e)`). -/
structure HTTPStatusError where
  status : Nat
  message : String
deriving Repr, DecidableEq

/-- A FastAPI `HTTPException` as raised by the endpoint handlers. -/
structure HTTPException where
  status_code : Nat
  detail : String
deriving Repr, DecidableEq

/-- The fields of `config.Settings` that `server.py` reads. -/
structure Settings where
  github_token : Option String
  github_org : String
deriving Repr, DecidableEq

/-- The upstream REST API, as a pure oracle: one response function per
endpoint reached by the embedded code.  Paginated endpoints take the `page`
parameter; the workflow-runs endpoint takes its `per_page` parameter. -/
structure Upstream where
  userOrgsResp : Except HTTPStatusError (List OrgData)
  userReposPage : Nat → Except HTTPStatusError (List RepoData)
  orgReposPage : String → Nat → Except HTTPStatusError (List RepoData)
  usersReposPage : String → Nat → Except HTTPStatusError (List RepoData)
  workflowsResp : String → String → Except HTTPStatusError (List WorkflowData)
  workflowRunsResp : String → String → Nat → Except HTTPStatusError (List RunData)
  runnersResp : String → String → Except HTTPStatusError (List RunnerData)
  branchesResp : String → String → Except HTTPStatusError (List BranchData)
  pullsResp : String → String → Except HTTPStatusError (List PRData)
  issuesResp : String → String → Except HTTPStatusError (List IssueData)

/-- The `while True` pagination loop of `get_org_repos` / `get_user_repos`:
request `page`, stop on an empty page, accumulate and stop on a short page
(fewer than 100 items), else continue with the next page.  On an upstream
error the items accumulated so far are reported alongside the error, because
the Python loop extends a list that survives the raised exception (the
`except` clause of `get_org_repos` keeps extending the same list).  `fuel`
bounds the number of page requests; exhaustion is reported as a pseudo-status
0 error, which no theorem relies on. -/
def reposLoop (pages : Nat → Except HTTPStatusError (List RepoData)) :
    Nat → Nat → List RepoData → Except (HTTPStatusError × List RepoData) (List RepoData)
  | 0, _, acc => .error (⟨0, "pagination fuel exhausted"⟩, acc)
  | fuel + 1, page, acc =>
    match pages page with
    | .error e => .error (e, acc)
    | .ok data =>
      if data = [] then .ok acc
      else if data.length < 100 then .ok (acc ++ data)
      else reposLoop pages fuel (page + 1) (acc ++ data)

/-- `GitHubClient.get_org_repos`: paginate the organization-scoped endpoint
starting at page 1; if that raises with status 404, re-paginate the
user-scoped endpoint for the same login from page 1 (the Python accumulator
list survives into the fallback); any other error propagates. -/
def get_org_repos (up : Upstream) (fuel : Nat) (org : String) :
    Except HTTPStatusError (List RepoData) :=
  match reposLoop (up.orgReposPage org) fuel 1 [] with
  | .ok repos => .ok repos
  | .error (e, acc) =>
    if e.status = 404 then
      match reposLoop (up.usersReposPage org) fuel 1 acc with
      | .ok repos => .ok repos
      | .error (e2, _) => .error e2
    else .error e

/-- `GitHubClient.get_user_repos`: paginate `/user/repos` from page 1; errors
propagate (no fallback). -/
def get_user_repos (up : Upstream) (fuel : Nat) :
    Except HTTPStatusError (List RepoData) :=
  match reposLoop up.userReposPage fuel 1 [] with
  | .ok repos => .ok repos
  | .error (e, _) => .error e

/-- `GitHubClient.get_user_orgs`: a single request, errors propagate. -/
def get_user_orgs (up : Upstream) : Except HTTPStatusError (List OrgData) :=
  up.userOrgsResp

/-- `GitHubClient.get_workflows`: a single request; any `HTTPStatusError` is
swallowed to an empty list. -/
def get_workflows (up : Upstream) (owner repo : String) : List WorkflowData :=
  match up.workflowsResp owner repo with
  | .ok ws => ws
  | .error _ => []

/-- `GitHubClient.get_workflow_runs`: a single request with the given
`per_page`; any `HTTPStatusError` is swallowed to an empty list. -/
def get_workflow_runs (up : Upstream) (owner repo : String) (per_page : Nat) :
    List RunData :=
  match up.workflowRunsResp owner repo per_page with
  | .ok rs => rs
  | .error _ => []

/-- `GitHubClient.get_runners`: a single request; any `HTTPStatusError` is
swallowed (after logging) to an empty list. -/
def get_runners (up : Upstream) (owner repo : String) : List RunnerData :=
  match up.runnersResp owner repo with
  | .ok rs => rs
  | .error _ => []

/-- `GitHubClient.get_branches`: a single request; any `HTTPStatusError` is
swallowed to an empty list. -/
def get_branches (up : Upstream) (owner repo : String) : List BranchData :=
  match up.branchesResp owner repo with
  | .ok bs => bs
  | .error _ => []

/-- `GitHubClient.get_pull_requests`: a single request; any `HTTPStatusError`
is swallowed to an empty list. -/
def get_pull_requests (up : Upstream) (owner repo : String) : List PRData :=
  match up.pullsResp owner repo with
  | .ok ps => ps
  | .error _ => []

/-- `GitHubClient.get_issues`: a single request; the decoded items are
filtered to drop every item carrying the `"pull_request"` marker key; any
`HTTPStatusError` is swallowed to an empty list. -/
def get_issues (up : Upstream) (owner repo : String) : List IssueData :=
  match up.issuesResp owner repo with
  | .ok issues => issues.filter (fun issue => !issue.pull_request)
  | .error _ => []

/-- The repository child node built inside the `for repo in repos` loop of
`build_org_tree_lightweight`. -/
def repoNode (repo : RepoData) : TreeNode :=
  .mk ("repo-" ++ repo.owner_login ++ "-" ++ repo.name) repo.name "repository"
    Option.none (Option.some repo.html_url) []
    [("description", match repo.description with
        | Option.some s => .str s
        | Option.none => .none),
     ("private", .bool repo.is_private),
     ("language", match repo.language with
        | Option.some s => .str s
        | Option.none => .none),
     ("stars", .nat repo.stargazers_count),
     ("updated_at", match repo.updated_at with
        | Option.some s => .str s
        | Option.none => .none),
     ("owner", .str repo.owner_login)]
    true false

/-- `server.build_org_tree_lightweight` (the unused `client` parameter is
dropped): one `organization` node whose children are one `repository` node
per repository, in order of appending. -/
def build_org_tree_lightweight (org_name : String) (repos : List RepoData) :
    TreeNode :=
  .mk ("org-" ++ org_name) org_name "organization" Option.none Option.none
    (repos.map repoNode)
    [("repo_count", .nat repos.length)]
    (decide (repos.length > 0)) true

/-- The workflow leaf node of `build_repo_details`. -/
def workflowNode (workflow : WorkflowData) : TreeNode :=
  .mk ("workflow-" ++ toString workflow.id) workflow.name "workflow"
    workflow.state workflow.html_url []
    [("path", match workflow.path with
        | Option.some s => .str s
        | Option.none => .none)]
    false true

/-- The workflows container node of `build_repo_details`: name embeds the
full fetched count, children are the first 20 workflows. -/
def workflowsContainer (owner repo_name : String)
    (workflows : List WorkflowData) : TreeNode :=
  .mk ("workflows-" ++ owner ++ "-" ++ repo_name)
    ("Workflows (" ++ toString workflows.length ++ ")") "workflows"
    Option.none Option.none ((workflows.take 20).map workflowNode) []
    (decide (workflows.length > 0)) true

/-- The workflow-run leaf node of `build_repo_details`.  Its status is
`run.get("conclusion", run.get("status"))`. -/
def runNode (run : RunData) : TreeNode :=
  .mk ("run-" ++ toString run.id) (run.name ++ " #" ++ toString run.run_number)
    "workflow_run"
    (match run.conclusion with
      | Option.some c => Option.some c
      | Option.none => run.status)
    run.html_url []
    [("created_at", match run.created_at with
        | Option.some s => .str s
        | Option.none => .none),
     ("updated_at", match run.updated_at with
        | Option.some s => .str s
        | Option.none => .none)]
    false true

/-- The workflow-runs container node of `build_repo_details`: children are
the first 10 runs. -/
def runsContainer (owner repo_name : String) (workflow_runs : List RunData) :
    TreeNode :=
  .mk ("runs-" ++ owner ++ "-" ++ repo_name)
    ("Recent Runs (" ++ toString workflow_runs.length ++ ")") "workflow_runs"
    Option.none Option.none ((workflow_runs.take 10).map runNode) []
    (decide (workflow_runs.length > 0)) true

/-- The runner leaf node of `build_repo_details`. -/
def runnerNode (runner : RunnerData) : TreeNode :=
  .mk ("runner-" ++ toString runner.id) runner.name "runner" runner.status
    Option.none []
    [("os", match runner.os with
        | Option.some s => .str s
        | Option.none => .none),
     ("busy", match runner.busy with
        | Option.some b => .bool b
        | Option.none => .none)]
    false true

/-- The runners container node of `build_repo_details`: children are all
fetched runners (the source applies no cap to this category). -/
def runnersContainer (owner repo_name : String) (runners : List RunnerData) :
    TreeNode :=
  .mk ("runners-" ++ owner ++ "-" ++ repo_name)
    ("Runners (" ++ toString runners.length ++ ")") "runners"
    Option.none Option.none (runners.map runnerNode) []
    (decide (runners.length > 0)) true

/-- The branch leaf node of `build_repo_details`. -/
def branchNode (owner repo_name : String) (branch : BranchData) : TreeNode :=
  .mk ("branch-" ++ owner ++ "-" ++ repo_name ++ "-" ++ branch.name)
    branch.name "branch" Option.none Option.none []
    [("protected", .bool branch.is_protected)]
    false true

/-- The branches container node of `build_repo_details`: children are the
first 20 branches. -/
def branchesContainer (owner repo_name : String) (branches : List BranchData) :
    TreeNode :=
  .mk ("branches-" ++ owner ++ "-" ++ repo_name)
    ("Branches (" ++ toString branches.length ++ ")") "branches"
    Option.none Option.none ((branches.take 20).map (branchNode owner repo_name)) []
    (decide (branches.length > 0)) true

/-- The pull-request leaf node of `build_repo_details`. -/
def prNode (pr : PRData) : TreeNode :=
  .mk ("pr-" ++ toString pr.id) ("#" ++ toString pr.number ++ " " ++ pr.title)
    "pull_request" pr.state pr.html_url []
    [("created_at", match pr.created_at with
        | Option.some s => .str s
        | Option.none => .none),
     ("updated_at", match pr.updated_at with
        | Option.some s => .str s
        | Option.none => .none),
     ("draft", .bool pr.draft)]
    false true

/-- The pull-requests container node of `build_repo_details`: children are
the first 20 pull requests. -/
def prsContainer (owner repo_name : String) (pull_requests : List PRData) :
    TreeNode :=
  .mk ("prs-" ++ owner ++ "-" ++ repo_name)
    ("Pull Requests (" ++ toString pull_requests.length ++ ")") "pull_requests"
    Option.none Option.none ((pull_requests.take 20).map prNode) []
    (decide (pull_requests.length > 0)) true

/-- The issue leaf node of `build_repo_details`. -/
def issueNode (issue : IssueData) : TreeNode :=
  .mk ("issue-" ++ toString issue.id)
    ("#" ++ toString issue.number ++ " " ++ issue.title)
    "issue" issue.state issue.html_url []
    [("created_at", match issue.created_at with
        | Option.some s => .str s
        | Option.none => .none),
     ("updated_at", match issue.updated_at with
        | Option.some s => .str s
        | Option.none => .none)]
    false true

/-- The issues container node of `build_repo_details`: children are the
first 20 (already PR-filtered) issues. -/
def issuesContainer (owner repo_name : String) (issues : List IssueData) :
    TreeNode :=
  .mk ("issues-" ++ owner ++ "-" ++ repo_name)
    ("Issues (" ++ toString issues.length ++ ")") "issues"
    Option.none Option.none ((issues.take 20).map issueNode) []
    (decide (issues.length > 0)) true

/-- `server.build_repo_details`: fetch the six categories in order, and for
each non-empty result append one container node; empty categories contribute
nothing (`if workflows:` etc.). -/
def build_repo_details (up : Upstream) (owner repo_name : String) :
    List TreeNode :=
  let workflows := get_workflows up owner repo_name
  let workflow_runs := get_workflow_runs up owner repo_name 10
  let runners := get_runners up owner repo_name
  let branches := get_branches up owner repo_name
  let pull_requests := get_pull_requests up owner repo_name
  let issues := get_issues up owner repo_name
  (if workflows = [] then [] else [workflowsContainer owner repo_name workflows]) ++
  (if workflow_runs = [] then [] else [runsContainer owner repo_name workflow_runs]) ++
  (if runners = [] then [] else [runnersContainer owner repo_name runners]) ++
  (if branches = [] then [] else [branchesContainer owner repo_name branches]) ++
  (if pull_requests = [] then [] else [prsContainer owner repo_name pull_requests]) ++
  (if issues = [] then [] else [issuesContainer owner repo_name issues])

/-- The Python truthiness coercion of `settings.github_token`:
`settings.github_token if settings.github_token else None` (an empty string
is falsy). -/
def settings_token (st : Settings) : Option String :=
  match st.github_token with
  | Option.some t => if t = "" then Option.none else Option.some t
  | Option.none => Option.none

/-- `token = x_github_token or (settings.github_token if settings.github_token
else None)`: Python `or` falls through on a falsy left operand (absent header
or empty string). -/
def effective_token (x_github_token : Option String) (st : Settings) :
    Option String :=
  match x_github_token with
  | Option.some t => if t = "" then settings_token st else Option.some t
  | Option.none => settings_token st

/-- The `org_list` parsing of `get_tree`:
`[o.strip() for o in orgs.split(',')] if orgs else []`. -/
def parse_org_list (orgs : Option String) : List String :=
  match orgs with
  | Option.some s => if s = "" then [] else (s.splitOn ",").map (fun o => o.trim)
  | Option.none => []

/-- The `except httpx.HTTPStatusError` clause shared by the endpoint
handlers: 401 becomes "Invalid GitHub token", 403 becomes rate-limit, any
other status is passed through with the error's message as detail. -/
def http_error_to_exception (e : HTTPStatusError) : HTTPException :=
  if e.status = 401 then ⟨401, "Invalid GitHub token"⟩
  else if e.status = 403 then ⟨403, "GitHub API rate limit exceeded"⟩
  else ⟨e.status, e.message⟩

/-- The `for org_data in orgs_to_fetch` loop of `get_tree`: fetch each root's
repositories and append one organization node to the accumulated
`tree_nodes`; a raised `HTTPStatusError` aborts the whole build and is
classified by the handler's `except` clause. -/
def tree_nodes_loop (up : Upstream) (fuel : Nat) :
    List OrgData → List TreeNode → Except HTTPException (List TreeNode)
  | [], tree_nodes => .ok tree_nodes
  | org_data :: rest, tree_nodes =>
    match get_org_repos up fuel org_data.login with
    | .error e => .error (http_error_to_exception e)
    | .ok repos =>
      tree_nodes_loop up fuel rest
        (tree_nodes ++ [build_org_tree_lightweight org_data.login repos])

/-- The `GET /api/tree` handler `get_tree`: credential check, root
determination (explicit filter, else configured default organization, else
the identity's organizations plus a synthetic "Personal Repositories" root
when the identity owns repositories), then one organization node per root. -/
def get_tree (st : Settings) (orgs : Option String)
    (x_github_token : Option String) (up : Upstream) (fuel : Nat) :
    Except HTTPException (List TreeNode) :=
  match effective_token x_github_token st with
  | Option.none => .error ⟨401, "GitHub token is required"⟩
  | Option.some _ =>
    let org_list := parse_org_list orgs
    if org_list ≠ [] then
      tree_nodes_loop up fuel (org_list.map OrgData.mk) []
    else if st.github_org ≠ "" then
      tree_nodes_loop up fuel [OrgData.mk st.github_org] []
    else
      match get_user_orgs up with
      | .error e => .error (http_error_to_exception e)
      | .ok orgs_to_fetch =>
        match get_user_repos up fuel with
        | .error e => .error (http_error_to_exception e)
        | .ok personal_repos =>
          tree_nodes_loop up fuel orgs_to_fetch
            (if personal_repos ≠ [] then
              [build_org_tree_lightweight "Personal Repositories" personal_repos]
            else [])

/-- The `GET /api/repo-details/{owner}/{repo}` handler `get_repo_details`:
credential check, then `build_repo_details` (whose category fetches swallow
their own upstream errors). -/
def get_repo_details (st : Settings) (owner repo : String)
    (x_github_token : Option String) (up : Upstream) :
    Except HTTPException (List TreeNode) :=
  match effective_token x_github_token st with
  | Option.none => .error ⟨401, "GitHub token is required"⟩
  | Option.some _ => .ok (build_repo_details up owner repo)

mutual
/-- All `id` strings of a tree, in pre-order. -/
def collectIds : TreeNode → List String
  | .mk i _ _ _ _ children _ _ _ => i :: collectIdsList children
/-- All `id` strings of a forest, in pre-order. -/
def collectIdsList : List TreeNode → List String
  | [] => []
  | n :: ns => collectIds n ++ collectIdsList ns
end

/-! ### Helper lemmas and concrete fixtures -/

/-- If every root's repository fetch succeeds, the `for org_data in
orgs_to_fetch` loop of `get_tree` appends exactly one organization node per
root, in the order the roots were enumerated. -/
theorem tree_nodes_loop_ok (up : Upstream) (fuel : Nat) (f : String → List RepoData)
    (os : List OrgData) :
    ∀ (acc : List TreeNode),
      (∀ o ∈ os, get_org_repos up fuel o.login = .ok (f o.login)) →
      tree_nodes_loop up fuel os acc =
        .ok (acc ++ os.map (fun o => build_org_tree_lightweight o.login (f o.login))) := by
  induction os with
  | nil => intro acc _; simp [tree_nodes_loop]
  | cons o rest ih =>
    intro acc h
    have ho := h o (by simp)
    have ih' := ih (acc ++ [build_org_tree_lightweight o.login (f o.login)])
      (fun o' ho' => h o' (by simp [ho']))
    simp only [tree_nodes_loop, ho, ih']
    simp

/-- A settings record with no configured token and no default organization. -/
def st0 : Settings := ⟨Option.none, ""⟩

/-- A settings record with no configured token and default organization
`acme`. -/
def stOrg : Settings := ⟨Option.none, "acme"⟩

/-- An upstream oracle whose every endpoint returns an empty payload. -/
def upEmpty : Upstream :=
  ⟨.ok [], fun _ => .ok [], fun _ _ => .ok [], fun _ _ => .ok [],
   fun _ _ => .ok [], fun _ _ _ => .ok [], fun _ _ => .ok [],
   fun _ _ => .ok [], fun _ _ => .ok [], fun _ _ => .ok []⟩

/-- A concrete repository object owned by `acme`. -/
def repoA : RepoData :=
  ⟨"acme", "a", "https://github.test/acme/a", Option.none, false, Option.none, 0,
   Option.none⟩

/-- A concrete repository map: login `acme` owns exactly `repoA`. -/
def fA : String → List RepoData := fun o => if o = "acme" then [repoA] else []

/-- An upstream oracle where the organization-scoped repository endpoint for
`acme` serves one page holding `repoA`. -/
def upC1 : Upstream :=
  { upEmpty with
    orgReposPage := fun o p => if o = "acme" ∧ p = 1 then .ok [repoA] else .ok [] }

/-! ### C1 -/

/-- C1: every root login handed to the shallow-tree build yields exactly one
`organization`-type node whose children are one `repository`-type node per
upstream repository, in upstream order; each repository node has
`hasChildren=true`, `isLoaded=false` and empty children; a root with an empty
repository list still yields an organization node with zero children and
`hasChildren=false`.  The endpoint-level conjunct shows `get_tree` returning
exactly the per-root organization nodes. -/
theorem C1_shallow_tree_shape (up : Upstream) (fuel : Nat)
    (f : String → List RepoData) (roots : List OrgData)
    (hfetch : ∀ o ∈ roots, get_org_repos up fuel o.login = .ok (f o.login))
    (st : Settings) (tok : String) (htok : tok ≠ "") (horg : st.github_org ≠ "")
    (hfetchOrg : get_org_repos up fuel st.github_org = .ok (f st.github_org)) :
    tree_nodes_loop up fuel roots [] =
      .ok (roots.map (fun o => build_org_tree_lightweight o.login (f o.login))) ∧
    get_tree st Option.none (Option.some tok) up fuel =
      .ok [build_org_tree_lightweight st.github_org (f st.github_org)] ∧
    (∀ org_name repos,
      (build_org_tree_lightweight org_name repos).type = "organization" ∧
      (build_org_tree_lightweight org_name repos).isLoaded = true ∧
      (build_org_tree_lightweight org_name repos).children.length = repos.length ∧
      ∀ i : Nat, (build_org_tree_lightweight org_name repos).children[i]? =
        (repos[i]?).map repoNode) ∧
    (∀ repo, (repoNode repo).type = "repository" ∧
      (repoNode repo).hasChildren = true ∧ (repoNode repo).isLoaded = false ∧
      (repoNode repo).children = []) ∧
    (∀ org_name,
      (build_org_tree_lightweight org_name []).children = [] ∧
      (build_org_tree_lightweight org_name []).hasChildren = false) ∧
    (∀ org_name repos, repos ≠ [] →
      (build_org_tree_lightweight org_name repos).hasChildren = true) := by
  refine ⟨tree_nodes_loop_ok up fuel f roots [] hfetch, ?_, ?_, ?_, ?_, ?_⟩
  · have htokEq : effective_token (Option.some tok) st = Option.some tok := by
      simp [effective_token, htok]
    have hloop := tree_nodes_loop_ok up fuel f [OrgData.mk st.github_org] []
      (by intro o ho; simp at ho; subst ho; exact hfetchOrg)
    simp only [get_tree, htokEq, parse_org_list, hloop]
    simp [horg, hloop]
  · intro org_name repos
    refine ⟨rfl, rfl, by simp [build_org_tree_lightweight, TreeNode.children], ?_⟩
    intro i
    simp [build_org_tree_lightweight, TreeNode.children]
  · intro repo
    exact ⟨rfl, rfl, rfl, rfl⟩
  · intro org_name
    exact ⟨rfl, rfl⟩
  · intro org_name repos hne
    simp [build_org_tree_lightweight, TreeNode.hasChildren,
      List.length_pos, hne]

/-- Witness for C1 at concrete inputs: one root `acme` owning one
repository. -/
theorem C1_shallow_tree_shape_witness :
    ((∀ o ∈ ([⟨"acme"⟩] : List OrgData),
        get_org_repos upC1 5 o.login = .ok (fA o.login)) ∧
      "t" ≠ "" ∧ stOrg.github_org ≠ "" ∧
      get_org_repos upC1 5 stOrg.github_org = .ok (fA stOrg.github_org)) ∧
    tree_nodes_loop upC1 5 [⟨"acme"⟩] [] =
      .ok [build_org_tree_lightweight "acme" (fA "acme")] ∧
    get_tree stOrg Option.none (Option.some "t") upC1 5 =
      .ok [build_org_tree_lightweight "acme" (fA "acme")] := by
  have hfetch : ∀ o ∈ ([⟨"acme"⟩] : List OrgData),
      get_org_repos upC1 5 o.login = .ok (fA o.login) := by
    intro o ho; simp at ho; subst ho; rfl
  have h := C1_shallow_tree_shape upC1 5 fA [⟨"acme"⟩] hfetch stOrg "t"
    (by decide) (by decide) (by rfl)
  exact ⟨⟨hfetch, by decide, by decide, by rfl⟩, h.1, h.2.1⟩

/-! ### C2 -/

/-- C2: for any capped category whose upstream fetch returns more items than
its cap (20 for workflows, branches, pull requests and issues; 10 for
workflow runs) — independently of what the other categories return — the
container node built by `build_repo_details` is in the result with exactly
`cap` children, and those children are the image of the first `cap` upstream
items in upstream order.  (The issues category is measured after the
pull-request filter that `get_issues` applies.) -/
theorem C2_truncation_caps (up : Upstream) (owner repo : String) :
    (∀ ws, up.workflowsResp owner repo = .ok ws → ws.length > 20 →
      workflowsContainer owner repo ws ∈ build_repo_details up owner repo ∧
      (workflowsContainer owner repo ws).children.length = 20 ∧
      ∀ i < 20, (workflowsContainer owner repo ws).children[i]? =
        (ws[i]?).map workflowNode) ∧
    (∀ rs, up.workflowRunsResp owner repo 10 = .ok rs → rs.length > 10 →
      runsContainer owner repo rs ∈ build_repo_details up owner repo ∧
      (runsContainer owner repo rs).children.length = 10 ∧
      ∀ i < 10, (runsContainer owner repo rs).children[i]? =
        (rs[i]?).map runNode) ∧
    (∀ bs, up.branchesResp owner repo = .ok bs → bs.length > 20 →
      branchesContainer owner repo bs ∈ build_repo_details up owner repo ∧
      (branchesContainer owner repo bs).children.length = 20 ∧
      ∀ i < 20, (branchesContainer owner repo bs).children[i]? =
        (bs[i]?).map (branchNode owner repo)) ∧
    (∀ ps, up.pullsResp owner repo = .ok ps → ps.length > 20 →
      prsContainer owner repo ps ∈ build_repo_details up owner repo ∧
      (prsContainer owner repo ps).children.length = 20 ∧
      ∀ i < 20, (prsContainer owner repo ps).children[i]? =
        (ps[i]?).map prNode) ∧
    (∀ items, up.issuesResp owner repo = .ok items →
      (items.filter (fun i => !i.pull_request)).length > 20 →
      issuesContainer owner repo (items.filter (fun i => !i.pull_request)) ∈
        build_repo_details up owner repo ∧
      (issuesContainer owner repo
        (items.filter (fun i => !i.pull_request))).children.length = 20 ∧
      ∀ i < 20,
        (issuesContainer owner repo
          (items.filter (fun i => !i.pull_request))).children[i]? =
        ((items.filter (fun i => !i.pull_request))[i]?).map issueNode) := by
  refine ⟨?_, ?_, ?_, ?_, ?_⟩
  · intro ws hw hwlen
    have hne : ws ≠ [] := by intro hnil; rw [hnil] at hwlen; simp at hwlen
    refine ⟨?_, ?_, ?_⟩
    · simp [build_repo_details, get_workflows, hw, hne]
    · simp [workflowsContainer, TreeNode.children]; omega
    · intro i hilt
      simp [workflowsContainer, TreeNode.children, List.getElem?_take, hilt]
  · intro rs hr hrlen
    have hne : rs ≠ [] := by intro hnil; rw [hnil] at hrlen; simp at hrlen
    refine ⟨?_, ?_, ?_⟩
    · simp [build_repo_details, get_workflow_runs, hr, hne]
    · simp [runsContainer, TreeNode.children]; omega
    · intro i hilt
      simp [runsContainer, TreeNode.children, List.getElem?_take, hilt]
  · intro bs hb hblen
    have hne : bs ≠ [] := by intro hnil; rw [hnil] at hblen; simp at hblen
    refine ⟨?_, ?_, ?_⟩
    · simp [build_repo_details, get_branches, hb, hne]
    · simp [branchesContainer, TreeNode.children]; omega
    · intro i hilt
      simp [branchesContainer, TreeNode.children, List.getElem?_take, hilt]
  · intro ps hp hplen
    have hne : ps ≠ [] := by intro hnil; rw [hnil] at hplen; simp at hplen
    refine ⟨?_, ?_, ?_⟩
    · simp [build_repo_details, get_pull_requests, hp, hne]
    · simp [prsContainer, TreeNode.children]; omega
    · intro i hilt
      simp [prsContainer, TreeNode.children, List.getElem?_take, hilt]
  · intro items hi hilen
    have hne : items.filter (fun i => !i.pull_request) ≠ [] := by
      intro hnil; rw [hnil] at hilen; simp at hilen
    refine ⟨?_, ?_, ?_⟩
    · simp [build_repo_details, get_issues, hi, hne]
    · simp [issuesContainer, TreeNode.children]; omega
    · intro i hilt
      simp [issuesContainer, TreeNode.children, List.getElem?_take, hilt]

/-- 21 concrete workflows (one over the cap of 20). -/
def wsN : List WorkflowData :=
  (List.range 21).map (fun i => ⟨i, "w", Option.none, Option.none, Option.none⟩)

/-- 11 concrete workflow runs (one over the cap of 10). -/
def rsN : List RunData :=
  (List.range 11).map
    (fun i => ⟨i, "r", i, Option.none, Option.none, Option.none, Option.none, Option.none⟩)

/-- 21 concrete branches (one over the cap of 20). -/
def bsN : List BranchData := (List.range 21).map (fun i => ⟨toString i, false⟩)

/-- 21 concrete pull requests (one over the cap of 20). -/
def psN : List PRData :=
  (List.range 21).map
    (fun i => ⟨i, i, "p", Option.none, Option.none, Option.none, Option.none, false⟩)

/-- 21 concrete unmarked issues (one over the cap of 20). -/
def isN : List IssueData :=
  (List.range 21).map
    (fun i => ⟨i, i, "s", Option.none, Option.none, Option.none, Option.none, false⟩)

/-- An upstream oracle serving the over-cap category lists. -/
def upC2 : Upstream :=
  { upEmpty with
    workflowsResp := fun _ _ => .ok wsN,
    workflowRunsResp := fun _ _ _ => .ok rsN,
    branchesResp := fun _ _ => .ok bsN,
    pullsResp := fun _ _ => .ok psN,
    issuesResp := fun _ _ => .ok isN }

/-- Two concrete workflows (well under the cap of 20). -/
def wsSmall : List WorkflowData :=
  [⟨1, "w1", Option.none, Option.none, Option.none⟩,
   ⟨2, "w2", Option.none, Option.none, Option.none⟩]

/-- An upstream oracle where only the branches category exceeds its cap
(21 branches, 2 workflows, everything else empty). -/
def upC2b : Upstream :=
  { upEmpty with
    workflowsResp := fun _ _ => .ok wsSmall,
    branchesResp := fun _ _ => .ok bsN }

/-- Witness for C2 at concrete inputs: 21/11/21/21/21 upstream items per
category are truncated to 20/10/20/20/20 children, and on a second oracle
where only branches exceed their cap the branches container alone is
truncated. -/
theorem C2_truncation_caps_witness :
    (upC2.workflowsResp "o" "r" = .ok wsN ∧ wsN.length > 20 ∧
     upC2.workflowRunsResp "o" "r" 10 = .ok rsN ∧ rsN.length > 10 ∧
     upC2.branchesResp "o" "r" = .ok bsN ∧ bsN.length > 20 ∧
     upC2.pullsResp "o" "r" = .ok psN ∧ psN.length > 20 ∧
     upC2.issuesResp "o" "r" = .ok isN ∧
     (isN.filter (fun i => !i.pull_request)).length > 20 ∧
     upC2b.branchesResp "o" "r" = .ok bsN ∧
     upC2b.workflowsResp "o" "r" = .ok wsSmall) ∧
    (workflowsContainer "o" "r" wsN).children.length = 20 ∧
    (runsContainer "o" "r" rsN).children.length = 10 ∧
    (branchesContainer "o" "r" bsN).children.length = 20 ∧
    (prsContainer "o" "r" psN).children.length = 20 ∧
    (issuesContainer "o" "r" (isN.filter (fun i => !i.pull_request))).children.length = 20 ∧
    branchesContainer "o" "r" bsN ∈ build_repo_details upC2b "o" "r" ∧
    (branchesContainer "o" "r" bsN).children.length = 20 := by
  have h := C2_truncation_caps upC2 "o" "r"
  have hb := C2_truncation_caps upC2b "o" "r"
  exact ⟨⟨rfl, by decide, rfl, by decide, rfl, by decide, rfl, by decide, rfl,
      by decide, rfl, rfl⟩,
    (h.1 wsN rfl (by decide)).2.1, (h.2.1 rsN rfl (by decide)).2.1,
    (h.2.2.1 bsN rfl (by decide)).2.1, (h.2.2.2.1 psN rfl (by decide)).2.1,
    (h.2.2.2.2 isN rfl (by decide)).2.1,
    (hb.2.2.1 bsN rfl (by decide)).1, (hb.2.2.1 bsN rfl (by decide)).2.1⟩

/-! ### C3 -/

/-- Membership in an optional singleton block `if c then [] else [x]`. -/
theorem mem_opt_block {α : Type} (c : Prop) [Decidable c] (x y : α) :
    (y ∈ (if c then ([] : List α) else [x])) ↔ ¬c ∧ y = x := by
  by_cases h : c <;> simp [h]

/-- C3: `build_repo_details` emits container nodes only for categories with
at least one item (empty categories produce no node of their type at all),
the emitted containers appear in the fixed order workflows, workflow_runs,
runners, branches, pull_requests, issues, and each present container's name
embeds its item count. -/
theorem C3_container_order_and_omission (up : Upstream) (owner repo : String)
    (ws : List WorkflowData) (rs : List RunData) (rns : List RunnerData)
    (bs : List BranchData) (ps : List PRData) (items : List IssueData)
    (hw : up.workflowsResp owner repo = .ok ws)
    (hr : up.workflowRunsResp owner repo 10 = .ok rs)
    (hn : up.runnersResp owner repo = .ok rns)
    (hb : up.branchesResp owner repo = .ok bs)
    (hp : up.pullsResp owner repo = .ok ps)
    (hi : up.issuesResp owner repo = .ok items) :
    ((build_repo_details up owner repo).map TreeNode.type).Sublist
      ["workflows", "workflow_runs", "runners", "branches", "pull_requests",
       "issues"] ∧
    (ws = [] → "workflows" ∉ (build_repo_details up owner repo).map TreeNode.type) ∧
    (rs = [] → "workflow_runs" ∉ (build_repo_details up owner repo).map TreeNode.type) ∧
    (rns = [] → "runners" ∉ (build_repo_details up owner repo).map TreeNode.type) ∧
    (bs = [] → "branches" ∉ (build_repo_details up owner repo).map TreeNode.type) ∧
    (ps = [] → "pull_requests" ∉ (build_repo_details up owner repo).map TreeNode.type) ∧
    (items.filter (fun i => !i.pull_request) = [] →
      "issues" ∉ (build_repo_details up owner repo).map TreeNode.type) ∧
    (ws ≠ [] → workflowsContainer owner repo ws ∈ build_repo_details up owner repo ∧
      (workflowsContainer owner repo ws).name =
        "Workflows (" ++ toString ws.length ++ ")") ∧
    (rs ≠ [] → runsContainer owner repo rs ∈ build_repo_details up owner repo ∧
      (runsContainer owner repo rs).name =
        "Recent Runs (" ++ toString rs.length ++ ")") ∧
    (rns ≠ [] → runnersContainer owner repo rns ∈ build_repo_details up owner repo ∧
      (runnersContainer owner repo rns).name =
        "Runners (" ++ toString rns.length ++ ")") ∧
    (bs ≠ [] → branchesContainer owner repo bs ∈ build_repo_details up owner repo ∧
      (branchesContainer owner repo bs).name =
        "Branches (" ++ toString bs.length ++ ")") ∧
    (ps ≠ [] → prsContainer owner repo ps ∈ build_repo_details up owner repo ∧
      (prsContainer owner repo ps).name =
        "Pull Requests (" ++ toString ps.length ++ ")") ∧
    (items.filter (fun i => !i.pull_request) ≠ [] →
      issuesContainer owner repo (items.filter (fun i => !i.pull_request)) ∈
        build_repo_details up owner repo ∧
      (issuesContainer owner repo (items.filter (fun i => !i.pull_request))).name =
        "Issues (" ++ toString (items.filter (fun i => !i.pull_request)).length ++ ")") := by
  have hmap : (build_repo_details up owner repo).map TreeNode.type =
      (if ws = [] then [] else ["workflows"]) ++
      ((if rs = [] then [] else ["workflow_runs"]) ++
      ((if rns = [] then [] else ["runners"]) ++
      ((if bs = [] then [] else ["branches"]) ++
      ((if ps = [] then [] else ["pull_requests"]) ++
      (if items.filter (fun i => !i.pull_request) = [] then []
       else ["issues"]))))) := by
    simp [build_repo_details, get_workflows, get_workflow_runs, get_runners,
      get_branches, get_pull_requests, get_issues, hw, hr, hn, hb, hp, hi,
      apply_ite (List.map TreeNode.type), TreeNode.type, workflowsContainer,
      runsContainer, runnersContainer, branchesContainer, prsContainer,
      issuesContainer]
  refine ⟨?_, ?_, ?_, ?_, ?_, ?_, ?_, ?_, ?_, ?_, ?_, ?_, ?_⟩
  · rw [hmap]
    have target_eq :
        (["workflows", "workflow_runs", "runners", "branches", "pull_requests",
          "issues"] : List String) =
        ["workflows"] ++ (["workflow_runs"] ++ (["runners"] ++
          (["branches"] ++ (["pull_requests"] ++ ["issues"])))) := rfl
    rw [target_eq]
    refine List.Sublist.append ?_ (List.Sublist.append ?_
      (List.Sublist.append ?_ (List.Sublist.append ?_
      (List.Sublist.append ?_ ?_)))) <;>
      (split
       · exact List.nil_sublist _
       · exact List.Sublist.refl _)
  · intro h; rw [hmap]; simp [mem_opt_block, h]
  · intro h; rw [hmap]; simp [mem_opt_block, h]
  · intro h; rw [hmap]; simp [mem_opt_block, h]
  · intro h; rw [hmap]; simp [mem_opt_block, h]
  · intro h; rw [hmap]; simp [mem_opt_block, h]
  · intro h; rw [hmap]; simp [mem_opt_block, h]
  · intro h
    refine ⟨?_, rfl⟩
    simp [build_repo_details, get_workflows, hw, h]
  · intro h
    refine ⟨?_, rfl⟩
    simp [build_repo_details, get_workflow_runs, hr, h]
  · intro h
    refine ⟨?_, rfl⟩
    simp [build_repo_details, get_runners, hn, h]
  · intro h
    refine ⟨?_, rfl⟩
    simp [build_repo_details, get_branches, hb, h]
  · intro h
    refine ⟨?_, rfl⟩
    simp [build_repo_details, get_pull_requests, hp, h]
  · intro h
    refine ⟨?_, rfl⟩
    simp [build_repo_details, get_issues, hi, h]

/-- Three concrete branches of repository `acme/a`. -/
def bs3 : List BranchData := [⟨"main", false⟩, ⟨"dev", false⟩, ⟨"fix", false⟩]

/-- An upstream oracle for the spec's concrete scenario: repo `acme/a` has 0
workflows and 3 branches (all other categories empty). -/
def upC3 : Upstream := { upEmpty with branchesResp := fun _ _ => .ok bs3 }

/-- Witness for C3 at the spec's concrete scenario: `acme/a` with 0 workflows
and 3 branches yields only the branches container (and no workflows node). -/
theorem C3_container_order_and_omission_witness :
    (upC3.workflowsResp "acme" "a" = .ok ([] : List WorkflowData) ∧
     upC3.workflowRunsResp "acme" "a" 10 = .ok ([] : List RunData) ∧
     upC3.runnersResp "acme" "a" = .ok ([] : List RunnerData) ∧
     upC3.branchesResp "acme" "a" = .ok bs3 ∧
     upC3.pullsResp "acme" "a" = .ok ([] : List PRData) ∧
     upC3.issuesResp "acme" "a" = .ok ([] : List IssueData)) ∧
    ((build_repo_details upC3 "acme" "a").map TreeNode.type).Sublist
      ["workflows", "workflow_runs", "runners", "branches", "pull_requests",
       "issues"] ∧
    "workflows" ∉ (build_repo_details upC3 "acme" "a").map TreeNode.type ∧
    (branchesContainer "acme" "a" bs3 ∈ build_repo_details upC3 "acme" "a" ∧
     (branchesContainer "acme" "a" bs3).name =
       "Branches (" ++ toString bs3.length ++ ")") := by
  have h := C3_container_order_and_omission upC3 "acme" "a" [] [] [] bs3 [] []
    rfl rfl rfl rfl rfl rfl
  exact ⟨⟨rfl, rfl, rfl, rfl, rfl, rfl⟩, h.1, h.2.1 rfl,
    h.2.2.2.2.2.2.2.2.2.2.1 (by decide)⟩

/-! ### C4 -/

/-- C4: items of the upstream issues fetch that carry the `"pull_request"`
marker never appear in the issues result nor among the issue children of
`build_repo_details`; the issues result is exactly the fetched items without
the marker, in fetched order. -/
theorem C4_issue_pr_filter (up : Upstream) (owner repo : String)
    (items : List IssueData) (hi : up.issuesResp owner repo = .ok items) :
    (∀ it, it ∈ get_issues up owner repo ↔ it ∈ items ∧ it.pull_request = false) ∧
    (∀ n ∈ build_repo_details up owner repo, n.type = "issues" →
      ∀ c ∈ n.children, ∃ it, it ∈ items ∧ it.pull_request = false ∧
        c = issueNode it) ∧
    get_issues up owner repo = items.filter (fun i => !i.pull_request) := by
  refine ⟨?_, ?_, ?_⟩
  · intro it
    simp [get_issues, hi, List.mem_filter]
  · intro n hn htype
    simp only [build_repo_details, List.mem_append, mem_opt_block] at hn
    rcases hn with ((((⟨_, rfl⟩ | ⟨_, rfl⟩) | ⟨_, rfl⟩) | ⟨_, rfl⟩) | ⟨_, rfl⟩) | ⟨_, rfl⟩
    · simp [workflowsContainer, TreeNode.type] at htype
    · simp [runsContainer, TreeNode.type] at htype
    · simp [runnersContainer, TreeNode.type] at htype
    · simp [branchesContainer, TreeNode.type] at htype
    · simp [prsContainer, TreeNode.type] at htype
    · intro c hc
      simp only [issuesContainer, TreeNode.children, List.mem_map] at hc
      obtain ⟨it, hit, rfl⟩ := hc
      have hit' := List.mem_of_mem_take hit
      rw [get_issues, hi] at hit'
      have := List.mem_filter.mp hit'
      exact ⟨it, this.1, by simpa using this.2, rfl⟩
  · simp [get_issues, hi]

/-- Two concrete issue items: `#1` is a genuine issue, `#2` carries the
pull-request marker. -/
def issMix : List IssueData :=
  [⟨1, 1, "i", Option.none, Option.none, Option.none, Option.none, false⟩,
   ⟨2, 2, "p", Option.none, Option.none, Option.none, Option.none, true⟩]

/-- An upstream oracle whose issues endpoint serves one genuine issue and one
pull-request-marked item. -/
def upC4 : Upstream := { upEmpty with issuesResp := fun _ _ => .ok issMix }

/-- Witness for C4 at concrete inputs: the marked item is dropped, the
genuine issue is kept. -/
theorem C4_issue_pr_filter_witness :
    upC4.issuesResp "o" "r" = .ok issMix ∧
    (∀ it, it ∈ get_issues upC4 "o" "r" ↔ it ∈ issMix ∧ it.pull_request = false) ∧
    get_issues upC4 "o" "r" = issMix.filter (fun i => !i.pull_request) := by
  have h := C4_issue_pr_filter upC4 "o" "r" issMix rfl
  exact ⟨rfl, h.1, h.2.2⟩

/-! ### C5 -/

/-- The node types of a repository-detail response, one optional tag per
category in the fixed order, with no assumption on the upstream. -/
theorem build_repo_details_types (up : Upstream) (owner repo : String) :
    (build_repo_details up owner repo).map TreeNode.type =
      (if get_workflows up owner repo = [] then [] else ["workflows"]) ++
      ((if get_workflow_runs up owner repo 10 = [] then []
        else ["workflow_runs"]) ++
      ((if get_runners up owner repo = [] then [] else ["runners"]) ++
      ((if get_branches up owner repo = [] then [] else ["branches"]) ++
      ((if get_pull_requests up owner repo = [] then []
        else ["pull_requests"]) ++
      (if get_issues up owner repo = [] then [] else ["issues"]))))) := by
  simp [build_repo_details, apply_ite (List.map TreeNode.type),
    TreeNode.type, workflowsContainer, runsContainer, runnersContainer,
    branchesContainer, prsContainer, issuesContainer]

/-- C5: any single category's upstream fetch failure degrades to an empty
result for that category only: the handler still succeeds, the failing
category's container is omitted, the result is identical to the result over
an upstream whose corresponding endpoint returns an empty payload, and every
other non-empty category still contributes its container.  One conjunct per
category, each assuming only that category's failure. -/
theorem C5_partial_failure_isolation (up : Upstream) (owner repo : String) :
    (∀ (st : Settings) (tok : String), tok ≠ "" →
      get_repo_details st owner repo (Option.some tok) up =
        .ok (build_repo_details up owner repo)) ∧
    (∀ e, up.workflowsResp owner repo = .error e →
      "workflows" ∉ (build_repo_details up owner repo).map TreeNode.type ∧
      build_repo_details up owner repo =
        build_repo_details { up with workflowsResp := fun _ _ => .ok [] } owner repo ∧
      (get_workflow_runs up owner repo 10 ≠ [] →
        runsContainer owner repo (get_workflow_runs up owner repo 10) ∈ build_repo_details up owner repo) ∧
      (get_runners up owner repo ≠ [] →
        runnersContainer owner repo (get_runners up owner repo) ∈ build_repo_details up owner repo) ∧
      (get_branches up owner repo ≠ [] →
        branchesContainer owner repo (get_branches up owner repo) ∈ build_repo_details up owner repo) ∧
      (get_pull_requests up owner repo ≠ [] →
        prsContainer owner repo (get_pull_requests up owner repo) ∈ build_repo_details up owner repo) ∧
      (get_issues up owner repo ≠ [] →
        issuesContainer owner repo (get_issues up owner repo) ∈ build_repo_details up owner repo)) ∧
    (∀ e, up.workflowRunsResp owner repo 10 = .error e →
      "workflow_runs" ∉ (build_repo_details up owner repo).map TreeNode.type ∧
      build_repo_details up owner repo =
        build_repo_details { up with workflowRunsResp := fun _ _ _ => .ok [] } owner repo ∧
      (get_workflows up owner repo ≠ [] →
        workflowsContainer owner repo (get_workflows up owner repo) ∈ build_repo_details up owner repo) ∧
      (get_runners up owner repo ≠ [] →
        runnersContainer owner repo (get_runners up owner repo) ∈ build_repo_details up owner repo) ∧
      (get_branches up owner repo ≠ [] →
        branchesContainer owner repo (get_branches up owner repo) ∈ build_repo_details up owner repo) ∧
      (get_pull_requests up owner repo ≠ [] →
        prsContainer owner repo (get_pull_requests up owner repo) ∈ build_repo_details up owner repo) ∧
      (get_issues up owner repo ≠ [] →
        issuesContainer owner repo (get_issues up owner repo) ∈ build_repo_details up owner repo)) ∧
    (∀ e, up.runnersResp owner repo = .error e →
      "runners" ∉ (build_repo_details up owner repo).map TreeNode.type ∧
      build_repo_details up owner repo =
        build_repo_details { up with runnersResp := fun _ _ => .ok [] } owner repo ∧
      (get_workflows up owner repo ≠ [] →
        workflowsContainer owner repo (get_workflows up owner repo) ∈ build_repo_details up owner repo) ∧
      (get_workflow_runs up owner repo 10 ≠ [] →
        runsContainer owner repo (get_workflow_runs up owner repo 10) ∈ build_repo_details up owner repo) ∧
      (get_branches up owner repo ≠ [] →
        branchesContainer owner repo (get_branches up owner repo) ∈ build_repo_details up owner repo) ∧
      (get_pull_requests up owner repo ≠ [] →
        prsContainer owner repo (get_pull_requests up owner repo) ∈ build_repo_details up owner repo) ∧
      (get_issues up owner repo ≠ [] →
        issuesContainer owner repo (get_issues up owner repo) ∈ build_repo_details up owner repo)) ∧
    (∀ e, up.branchesResp owner repo = .error e →
      "branches" ∉ (build_repo_details up owner repo).map TreeNode.type ∧
      build_repo_details up owner repo =
        build_repo_details { up with branchesResp := fun _ _ => .ok [] } owner repo ∧
      (get_workflows up owner repo ≠ [] →
        workflowsContainer owner repo (get_workflows up owner repo) ∈ build_repo_details up owner repo) ∧
      (get_workflow_runs up owner repo 10 ≠ [] →
        runsContainer owner repo (get_workflow_runs up owner repo 10) ∈ build_repo_details up owner repo) ∧
      (get_runners up owner repo ≠ [] →
        runnersContainer owner repo (get_runners up owner repo) ∈ build_repo_details up owner repo) ∧
      (get_pull_requests up owner repo ≠ [] →
        prsContainer owner repo (get_pull_requests up owner repo) ∈ build_repo_details up owner repo) ∧
      (get_issues up owner repo ≠ [] →
        issuesContainer owner repo (get_issues up owner repo) ∈ build_repo_details up owner repo)) ∧
    (∀ e, up.pullsResp owner repo = .error e →
      "pull_requests" ∉ (build_repo_details up owner repo).map TreeNode.type ∧
      build_repo_details up owner repo =
        build_repo_details { up with pullsResp := fun _ _ => .ok [] } owner repo ∧
      (get_workflows up owner repo ≠ [] →
        workflowsContainer owner repo (get_workflows up owner repo) ∈ build_repo_details up owner repo) ∧
      (get_workflow_runs up owner repo 10 ≠ [] →
        runsContainer owner repo (get_workflow_runs up owner repo 10) ∈ build_repo_details up owner repo) ∧
      (get_runners up owner repo ≠ [] →
        runnersContainer owner repo (get_runners up owner repo) ∈ build_repo_details up owner repo) ∧
      (get_branches up owner repo ≠ [] →
        branchesContainer owner repo (get_branches up owner repo) ∈ build_repo_details up owner repo) ∧
      (get_issues up owner repo ≠ [] →
        issuesContainer owner repo (get_issues up owner repo) ∈ build_repo_details up owner repo)) ∧
    (∀ e, up.issuesResp owner repo = .error e →
      "issues" ∉ (build_repo_details up owner repo).map TreeNode.type ∧
      build_repo_details up owner repo =
        build_repo_details { up with issuesResp := fun _ _ => .ok [] } owner repo ∧
      (get_workflows up owner repo ≠ [] →
        workflowsContainer owner repo (get_workflows up owner repo) ∈ build_repo_details up owner repo) ∧
      (get_workflow_runs up owner repo 10 ≠ [] →
        runsContainer owner repo (get_workflow_runs up owner repo 10) ∈ build_repo_details up owner repo) ∧
      (get_runners up owner repo ≠ [] →
        runnersContainer owner repo (get_runners up owner repo) ∈ build_repo_details up owner repo) ∧
      (get_branches up owner repo ≠ [] →
        branchesContainer owner repo (get_branches up owner repo) ∈ build_repo_details up owner repo) ∧
      (get_pull_requests up owner repo ≠ [] →
        prsContainer owner repo (get_pull_requests up owner repo) ∈ build_repo_details up owner repo)) := by
  refine ⟨?_, ?_, ?_, ?_, ?_, ?_, ?_⟩
  · intro st tok htok
    simp [get_repo_details, effective_token, htok]
  · intro e hfail
    have hz : get_workflows up owner repo = [] := by simp [get_workflows, hfail]
    refine ⟨?_, ?_, ?_, ?_, ?_, ?_, ?_⟩
    · rw [build_repo_details_types]; simp [mem_opt_block, hz]
    · simp [build_repo_details, get_workflows, get_workflow_runs,
        get_runners, get_branches, get_pull_requests, get_issues, hfail]
    · intro h; simp [build_repo_details, h, hz]
    · intro h; simp [build_repo_details, h, hz]
    · intro h; simp [build_repo_details, h, hz]
    · intro h; simp [build_repo_details, h, hz]
    · intro h; simp [build_repo_details, h, hz]
  · intro e hfail
    have hz : get_workflow_runs up owner repo 10 = [] := by simp [get_workflow_runs, hfail]
    refine ⟨?_, ?_, ?_, ?_, ?_, ?_, ?_⟩
    · rw [build_repo_details_types]; simp [mem_opt_block, hz]
    · simp [build_repo_details, get_workflows, get_workflow_runs,
        get_runners, get_branches, get_pull_requests, get_issues, hfail]
    · intro h; simp [build_repo_details, h, hz]
    · intro h; simp [build_repo_details, h, hz]
    · intro h; simp [build_repo_details, h, hz]
    · intro h; simp [build_repo_details, h, hz]
    · intro h; simp [build_repo_details, h, hz]
  · intro e hfail
    have hz : get_runners up owner repo = [] := by simp [get_runners, hfail]
    refine ⟨?_, ?_, ?_, ?_, ?_, ?_, ?_⟩
    · rw [build_repo_details_types]; simp [mem_opt_block, hz]
    · simp [build_repo_details, get_workflows, get_workflow_runs,
        get_runners, get_branches, get_pull_requests, get_issues, hfail]
    · intro h; simp [build_repo_details, h, hz]
    · intro h; simp [build_repo_details, h, hz]
    · intro h; simp [build_repo_details, h, hz]
    · intro h; simp [build_repo_details, h, hz]
    · intro h; simp [build_repo_details, h, hz]
  · intro e hfail
    have hz : get_branches up owner repo = [] := by simp [get_branches, hfail]
    refine ⟨?_, ?_, ?_, ?_, ?_, ?_, ?_⟩
    · rw [build_repo_details_types]; simp [mem_opt_block, hz]
    · simp [build_repo_details, get_workflows, get_workflow_runs,
        get_runners, get_branches, get_pull_requests, get_issues, hfail]
    · intro h; simp [build_repo_details, h, hz]
    · intro h; simp [build_repo_details, h, hz]
    · intro h; simp [build_repo_details, h, hz]
    · intro h; simp [build_repo_details, h, hz]
    · intro h; simp [build_repo_details, h, hz]
  · intro e hfail
    have hz : get_pull_requests up owner repo = [] := by simp [get_pull_requests, hfail]
    refine ⟨?_, ?_, ?_, ?_, ?_, ?_, ?_⟩
    · rw [build_repo_details_types]; simp [mem_opt_block, hz]
    · simp [build_repo_details, get_workflows, get_workflow_runs,
        get_runners, get_branches, get_pull_requests, get_issues, hfail]
    · intro h; simp [build_repo_details, h, hz]
    · intro h; simp [build_repo_details, h, hz]
    · intro h; simp [build_repo_details, h, hz]
    · intro h; simp [build_repo_details, h, hz]
    · intro h; simp [build_repo_details, h, hz]
  · intro e hfail
    have hz : get_issues up owner repo = [] := by simp [get_issues, hfail]
    refine ⟨?_, ?_, ?_, ?_, ?_, ?_, ?_⟩
    · rw [build_repo_details_types]; simp [mem_opt_block, hz]
    · simp [build_repo_details, get_workflows, get_workflow_runs,
        get_runners, get_branches, get_pull_requests, get_issues, hfail]
    · intro h; simp [build_repo_details, h, hz]
    · intro h; simp [build_repo_details, h, hz]
    · intro h; simp [build_repo_details, h, hz]
    · intro h; simp [build_repo_details, h, hz]
    · intro h; simp [build_repo_details, h, hz]

/-- An upstream oracle where the runners fetch fails with a 500 while the
branches fetch succeeds with three branches. -/
def upC5 : Upstream :=
  { upEmpty with
    runnersResp := fun _ _ => .error ⟨500, "boom"⟩,
    branchesResp := fun _ _ => .ok bs3 }

/-- An upstream oracle where the workflows fetch fails with a 500 while the
branches fetch succeeds with three branches. -/
def upC5w : Upstream :=
  { upEmpty with
    workflowsResp := fun _ _ => .error ⟨500, "wboom"⟩,
    branchesResp := fun _ _ => .ok bs3 }

/-- Witness for C5 at concrete inputs: a failing runners fetch and, on a
second oracle, a failing workflows fetch; in both cases the failing
container is omitted and the branches container survives. -/
theorem C5_partial_failure_isolation_witness :
    (upC5.runnersResp "o" "r" = .error ⟨500, "boom"⟩ ∧
      upC5w.workflowsResp "o" "r" = .error ⟨500, "wboom"⟩ ∧
      "t" ≠ "" ∧ get_branches upC5 "o" "r" ≠ [] ∧
      get_branches upC5w "o" "r" ≠ []) ∧
    get_repo_details st0 "o" "r" (Option.some "t") upC5 =
      .ok (build_repo_details upC5 "o" "r") ∧
    "runners" ∉ (build_repo_details upC5 "o" "r").map TreeNode.type ∧
    branchesContainer "o" "r" (get_branches upC5 "o" "r") ∈
      build_repo_details upC5 "o" "r" ∧
    "workflows" ∉ (build_repo_details upC5w "o" "r").map TreeNode.type ∧
    branchesContainer "o" "r" (get_branches upC5w "o" "r") ∈
      build_repo_details upC5w "o" "r" := by
  have h1 := C5_partial_failure_isolation upC5 "o" "r"
  have h2 := C5_partial_failure_isolation upC5w "o" "r"
  have hrn := h1.2.2.2.1 ⟨500, "boom"⟩ rfl
  have hwf := h2.2.1 ⟨500, "wboom"⟩ rfl
  exact ⟨⟨rfl, rfl, by decide, by decide, by decide⟩,
    h1.1 st0 "t" (by decide), hrn.1, hrn.2.2.2.2.1 (by decide),
    hwf.1, hwf.2.2.2.2.1 (by decide)⟩

/-! ### C6 -/

/-- C6: with no usable credential (no header token or an empty one, and no
configured non-empty default token), both operations fail with the 401
"GitHub token is required" authentication error.  The conclusion holds for
every upstream oracle and every fuel, so the outcome consults no upstream
response whatsoever — the embedding's rendering of "issues zero upstream
requests". -/
theorem C6_no_credential (st : Settings) (x_github_token : Option String)
    (hx : x_github_token = Option.none ∨ x_github_token = Option.some "")
    (hs : st.github_token = Option.none ∨ st.github_token = Option.some "") :
    ∀ (orgs : Option String) (owner repo : String) (up : Upstream) (fuel : Nat),
      get_tree st orgs x_github_token up fuel =
        .error ⟨401, "GitHub token is required"⟩ ∧
      get_repo_details st owner repo x_github_token up =
        .error ⟨401, "GitHub token is required"⟩ := by
  intro orgs owner repo up fuel
  have htok : effective_token x_github_token st = Option.none := by
    rcases hx with rfl | rfl <;> rcases hs with h | h <;>
      simp [effective_token, settings_token, h]
  exact ⟨by simp [get_tree, htok], by simp [get_repo_details, htok]⟩

/-- Witness for C6 at concrete inputs: absent header token, unconfigured
default token, two different upstream oracles — both operations return the
same 401 regardless. -/
theorem C6_no_credential_witness :
    ((Option.none : Option String) = Option.none ∨
      (Option.none : Option String) = Option.some "") ∧
    (st0.github_token = Option.none ∨ st0.github_token = Option.some "") ∧
    get_tree st0 (Option.some "acme") Option.none upC2 3 =
      .error ⟨401, "GitHub token is required"⟩ ∧
    get_repo_details st0 "o" "r" Option.none upC5 =
      .error ⟨401, "GitHub token is required"⟩ := by
  have h1 := C6_no_credential st0 Option.none (Or.inl rfl) (Or.inl rfl)
    (Option.some "acme") "o" "r" upC2 3
  have h2 := C6_no_credential st0 Option.none (Or.inl rfl) (Or.inl rfl)
    (Option.some "acme") "o" "r" upC5 3
  exact ⟨Or.inl rfl, Or.inl rfl, h1.1, h2.2⟩

/-! ### C7 -/

/-- The `for` loop of `get_tree` aborts at the first root whose repository
fetch raises, surfacing the classified error, whatever roots (succeeding or
not-yet-visited) surround it and whatever was accumulated. -/
theorem tree_nodes_loop_error (up : Upstream) (fuel : Nat)
    (e : HTTPStatusError) (r : OrgData) (os2 : List OrgData) :
    ∀ (os1 : List OrgData) (acc : List TreeNode),
      (∀ o ∈ os1, ∃ rs, get_org_repos up fuel o.login = .ok rs) →
      get_org_repos up fuel r.login = .error e →
      tree_nodes_loop up fuel (os1 ++ r :: os2) acc =
        .error (http_error_to_exception e) := by
  intro os1
  induction os1 with
  | nil => intro acc _ hfail; simp [tree_nodes_loop, hfail]
  | cons o os ih =>
    intro acc h hfail
    obtain ⟨rs, hrs⟩ := h o (by simp)
    simp only [List.cons_append, tree_nodes_loop, hrs]
    exact ih _ (fun o' ho' => h o' (by simp [ho'])) hfail

/-- The build aborted with the classified form of upstream error `e`: a 401
surfaces as "Invalid GitHub token", a 403 as "GitHub API rate limit
exceeded", and any other status is passed through with the original status
code and message. -/
def classified_abort (res : Except HTTPException (List TreeNode))
    (e : HTTPStatusError) : Prop :=
  (e.status = 401 → res = .error ⟨401, "Invalid GitHub token"⟩) ∧
  (e.status = 403 → res = .error ⟨403, "GitHub API rate limit exceeded"⟩) ∧
  (e.status ≠ 401 → e.status ≠ 403 → res = .error ⟨e.status, e.message⟩)

/-- A result equal to the raw classified error satisfies the three-case
classification. -/
theorem classified_abort_of_eq (res : Except HTTPException (List TreeNode))
    (e : HTTPStatusError) (h : res = .error (http_error_to_exception e)) :
    classified_abort res e := by
  refine ⟨fun h1 => ?_, fun h1 => ?_, fun h1 h2 => ?_⟩ <;> rw [h] <;>
    simp [http_error_to_exception, h1, *]

/-- C7: whenever an upstream call made during the shallow-tree build fails
with a non-2xx status, the whole build aborts with the classified error —
401 as invalid credential, 403 as rate limit, anything else preserving the
original status and message.  Covered failure sites: any root of the build
loop; any root under an explicit organization filter; the configured default
organization's root; and, on the no-filter path, the organizations fetch,
the personal-repositories fetch, and any derived organization root. -/
theorem C7_error_classification (st : Settings) (tok : String) (htok : tok ≠ "")
    (up : Upstream) (fuel : Nat) (e : HTTPStatusError) :
    (∀ (os1 : List OrgData) (r : OrgData) (os2 : List OrgData)
        (acc : List TreeNode),
      (∀ o ∈ os1, ∃ rs, get_org_repos up fuel o.login = .ok rs) →
      get_org_repos up fuel r.login = .error e →
      tree_nodes_loop up fuel (os1 ++ r :: os2) acc =
        .error (http_error_to_exception e)) ∧
    (∀ (orgs : Option String) (os1 : List String) (r : String)
        (os2 : List String),
      parse_org_list orgs = os1 ++ r :: os2 →
      (∀ o ∈ os1, ∃ rs, get_org_repos up fuel o = .ok rs) →
      get_org_repos up fuel r = .error e →
      classified_abort (get_tree st orgs (Option.some tok) up fuel) e) ∧
    (st.github_org ≠ "" → get_org_repos up fuel st.github_org = .error e →
      classified_abort (get_tree st Option.none (Option.some tok) up fuel) e) ∧
    (st.github_org = "" → up.userOrgsResp = .error e →
      classified_abort (get_tree st Option.none (Option.some tok) up fuel) e) ∧
    (st.github_org = "" → ∀ orgsList, up.userOrgsResp = .ok orgsList →
      get_user_repos up fuel = .error e →
      classified_abort (get_tree st Option.none (Option.some tok) up fuel) e) ∧
    (st.github_org = "" →
      ∀ (os1 : List OrgData) (r : OrgData) (os2 : List OrgData),
      up.userOrgsResp = .ok (os1 ++ r :: os2) →
      (∀ o ∈ os1, ∃ rs, get_org_repos up fuel o.login = .ok rs) →
      ∀ personal, get_user_repos up fuel = .ok personal →
      get_org_repos up fuel r.login = .error e →
      classified_abort (get_tree st Option.none (Option.some tok) up fuel) e) := by
  have htokEq : effective_token (Option.some tok) st = Option.some tok := by
    simp [effective_token, htok]
  refine ⟨fun os1 r os2 acc h hfail =>
      tree_nodes_loop_error up fuel e r os2 os1 acc h hfail,
    ?_, ?_, ?_, ?_, ?_⟩
  · intro orgs os1 r os2 hparse hok hfail
    apply classified_abort_of_eq
    have hloop : tree_nodes_loop up fuel
        (os1.map OrgData.mk ++ OrgData.mk r :: os2.map OrgData.mk) [] =
        .error (http_error_to_exception e) := by
      refine tree_nodes_loop_error up fuel e ⟨r⟩ (os2.map OrgData.mk)
        (os1.map OrgData.mk) [] ?_ hfail
      intro o ho
      obtain ⟨o', ho', rfl⟩ := List.mem_map.mp ho
      exact hok o' ho'
    have hne : os1 ++ r :: os2 ≠ [] := by simp
    simp only [get_tree, htokEq, hparse]
    simp [hne, hloop]
  · intro horg hfail
    apply classified_abort_of_eq
    have hloop : tree_nodes_loop up fuel [OrgData.mk st.github_org] [] =
        .error (http_error_to_exception e) :=
      tree_nodes_loop_error up fuel e ⟨st.github_org⟩ [] [] [] (by simp) hfail
    simp only [get_tree, htokEq, parse_org_list]
    simp [horg, hloop]
  · intro horg hfail
    apply classified_abort_of_eq
    simp only [get_tree, htokEq, parse_org_list]
    simp [horg, get_user_orgs, hfail]
  · intro horg orgsList huo hfail
    apply classified_abort_of_eq
    simp only [get_tree, htokEq, parse_org_list]
    simp [horg, get_user_orgs, huo, hfail]
  · intro horg os1 r os2 huo hok personal hur hfail
    apply classified_abort_of_eq
    have hloop := tree_nodes_loop_error up fuel e r os2 os1
      (if personal ≠ [] then
        [build_org_tree_lightweight "Personal Repositories" personal]
       else []) hok hfail
    simp only [ne_eq, ite_not] at hloop
    simp only [get_tree, htokEq, parse_org_list]
    simp [horg, get_user_orgs, huo, hur, hloop]

set_option maxRecDepth 4000 in
/-- `parse_org_list` on the literal filter string `"a"`, evaluated by
unfolding the split and trim loops step by step (they are well-founded
recursions, so the kernel cannot reduce them directly). -/
theorem parse_org_list_single : parse_org_list (Option.some "a") = ["a"] := by
  have hsplit : "a".splitOn "," = ["a"] := by
    rw [show ("a".splitOn ",") = String.splitOnAux "a" "," 0 0 0 [] by
      simp [String.splitOn]]
    rw [String.splitOnAux.eq_def]
    simp +decide [String.atEnd, String.endPos, String.utf8ByteSize,
      String.get, String.next, String.extract, String.utf8GetAux,
      Char.utf8Size, String.utf8ByteSize.go]
    rw [String.splitOnAux.eq_def]
    simp +decide [String.atEnd, String.endPos, String.utf8ByteSize,
      String.get, String.next, String.extract, String.utf8GetAux,
      Char.utf8Size, String.utf8ByteSize.go, String.extract.go₁,
      String.extract.go₂]
  have htrim : "a".trim = "a" := by
    rw [String.trim]
    simp +decide [Substring.trim, String.toSubstring, Substring.toString,
      String.endPos, String.utf8ByteSize, String.utf8ByteSize.go,
      Char.utf8Size, String.extract, String.extract.go₁, String.extract.go₂]
    rw [Substring.takeRightWhileAux.eq_def]
    simp +decide [String.endPos, String.utf8ByteSize, String.utf8ByteSize.go,
      Char.utf8Size, String.get, String.utf8GetAux, String.next, String.prev,
      String.utf8PrevAux, String.extract, String.extract.go₁,
      String.extract.go₂]
    rw [Substring.takeWhileAux.eq_def]
    simp +decide [String.endPos, String.utf8ByteSize, String.utf8ByteSize.go,
      Char.utf8Size, String.get, String.utf8GetAux, String.next, String.atEnd]
  show (if ("a" : String) = "" then []
        else ("a".splitOn ",").map (fun o => o.trim)) = ["a"]
  rw [if_neg (by decide), hsplit]
  simp [htrim]

/-- An upstream oracle whose organization-repos endpoint always fails with
the given status and message. -/
def upErr (status : Nat) (msg : String) : Upstream :=
  { upEmpty with orgReposPage := fun _ _ => .error ⟨status, msg⟩ }

/-- An upstream oracle whose organizations fetch fails with a 500. -/
def upC7uo : Upstream := { upEmpty with userOrgsResp := .error ⟨500, "oops"⟩ }

/-- An upstream oracle whose personal-repositories fetch fails with a
403. -/
def upC7ur : Upstream :=
  { upEmpty with userReposPage := fun _ => .error ⟨403, "rate"⟩ }

/-- An upstream oracle with one derived organization `bad` whose repository
fetch fails with a 500. -/
def upC7of : Upstream :=
  { upEmpty with
    userOrgsResp := .ok [⟨"bad"⟩],
    orgReposPage := fun o _ =>
      if o = "bad" then .error ⟨500, "oops"⟩ else .ok [] }

/-- Witness for C7 at concrete inputs, one per failure site: a failing root
inside the loop (500 preserved), a failing root under the explicit filter
`"a"` (403), the failing default organization (401), a failing
organizations fetch (500 preserved), a failing personal-repositories fetch
(403), and a failing derived organization root (500 preserved). -/
theorem C7_error_classification_witness :
    ("t" ≠ "" ∧
      parse_org_list (Option.some "a") = [] ++ "a" :: [] ∧
      get_org_repos (upErr 403 "rate") 5 "a" = .error ⟨403, "rate"⟩ ∧
      stOrg.github_org ≠ "" ∧
      get_org_repos (upErr 401 "bad cred") 5 stOrg.github_org =
        .error ⟨401, "bad cred"⟩ ∧
      st0.github_org = "" ∧
      upC7uo.userOrgsResp = .error ⟨500, "oops"⟩ ∧
      get_user_repos upC7ur 5 = .error ⟨403, "rate"⟩ ∧
      upC7of.userOrgsResp = .ok ([] ++ (⟨"bad"⟩ : OrgData) :: []) ∧
      get_user_repos upC7of 5 = .ok ([] : List RepoData) ∧
      get_org_repos upC7of 5 "bad" = .error ⟨500, "oops"⟩) ∧
    tree_nodes_loop (upErr 500 "oops") 5 ([] ++ (⟨"x"⟩ : OrgData) :: []) [] =
      .error ⟨500, "oops"⟩ ∧
    get_tree st0 (Option.some "a") (Option.some "t") (upErr 403 "rate") 5 =
      .error ⟨403, "GitHub API rate limit exceeded"⟩ ∧
    get_tree stOrg Option.none (Option.some "t") (upErr 401 "bad cred") 5 =
      .error ⟨401, "Invalid GitHub token"⟩ ∧
    get_tree st0 Option.none (Option.some "t") upC7uo 5 =
      .error ⟨500, "oops"⟩ ∧
    get_tree st0 Option.none (Option.some "t") upC7ur 5 =
      .error ⟨403, "GitHub API rate limit exceeded"⟩ ∧
    get_tree st0 Option.none (Option.some "t") upC7of 5 =
      .error ⟨500, "oops"⟩ := by
  have hloop := (C7_error_classification st0 "t" (by decide)
    (upErr 500 "oops") 5 ⟨500, "oops"⟩).1 [] ⟨"x"⟩ [] [] (by simp) rfl
  have hfilter := (C7_error_classification st0 "t" (by decide)
    (upErr 403 "rate") 5 ⟨403, "rate"⟩).2.1 (Option.some "a") [] "a" []
    parse_org_list_single (by simp) rfl
  have hdef := (C7_error_classification stOrg "t" (by decide)
    (upErr 401 "bad cred") 5 ⟨401, "bad cred"⟩).2.2.1 (by decide) rfl
  have huo := (C7_error_classification st0 "t" (by decide) upC7uo 5
    ⟨500, "oops"⟩).2.2.2.1 rfl rfl
  have hur := (C7_error_classification st0 "t" (by decide) upC7ur 5
    ⟨403, "rate"⟩).2.2.2.2.1 rfl [] rfl rfl
  have hof := (C7_error_classification st0 "t" (by decide) upC7of 5
    ⟨500, "oops"⟩).2.2.2.2.2 rfl [] ⟨"bad"⟩ [] rfl (by simp) [] rfl rfl
  exact ⟨⟨by decide, parse_org_list_single, rfl, by decide, rfl, rfl, rfl,
      rfl, rfl, rfl, rfl⟩,
    hloop, hfilter.2.1 rfl, hdef.1 rfl, huo.2.2 (by decide) (by decide),
    hur.2.1 rfl, hof.2.2 (by decide) (by decide)⟩

/-! ### C8 -/

/-- C8: when the organization-scoped repository fetch for a login fails on
its first page with 404, `get_org_repos` transparently re-paginates the
user-scoped endpoint for the same login from page 1 and, on success, yields
the very repositories the user path serves — so the build produces the same
node shape as an upstream whose organization endpoint had served them
directly; any non-404 failure is propagated unchanged, with the user-scoped
endpoint never influencing the outcome. -/
theorem C8_org_user_fallback (up : Upstream) (fuel : Nat) (hfuel : 0 < fuel)
    (org : String) (e : HTTPStatusError)
    (hfirst : up.orgReposPage org 1 = .error e) :
    (e.status = 404 →
      ∀ rs, reposLoop (up.usersReposPage org) fuel 1 [] = .ok rs →
        get_org_repos up fuel org = .ok rs ∧
        get_org_repos up fuel org =
          get_org_repos { up with orgReposPage := up.usersReposPage } fuel org ∧
        tree_nodes_loop up fuel [⟨org⟩] [] =
          .ok [build_org_tree_lightweight org rs]) ∧
    (e.status ≠ 404 →
      get_org_repos up fuel org = .error e ∧
      ∀ g, get_org_repos { up with usersReposPage := g } fuel org = .error e) := by
  cases fuel with
  | zero => omega
  | succ f =>
    have hloop1 : reposLoop (up.orgReposPage org) (f + 1) 1 [] =
        .error (e, []) := by
      simp [reposLoop, hfirst]
    refine ⟨?_, ?_⟩
    · intro h404 rs huser
      have hres : get_org_repos up (f + 1) org = .ok rs := by
        simp [get_org_repos, hloop1, h404, huser]
      have hres2 : get_org_repos
          { up with orgReposPage := up.usersReposPage } (f + 1) org = .ok rs := by
        simp [get_org_repos, huser]
      exact ⟨hres, by rw [hres, hres2], by simp [tree_nodes_loop, hres]⟩
    · intro h
      refine ⟨by simp [get_org_repos, hloop1, h], fun g => ?_⟩
      simp [get_org_repos, hloop1, h]

/-- One concrete repository owned by the user `torvalds`. -/
def repoT : RepoData :=
  ⟨"torvalds", "linux", "https://github.test/torvalds/linux", Option.none, false,
   Option.none, 0, Option.none⟩

/-- An upstream oracle where the organization-scoped endpoint 404s for every
login while the user-scoped endpoint serves one page for `torvalds`. -/
def upC8 : Upstream :=
  { upEmpty with
    orgReposPage := fun _ _ => .error ⟨404, "not found"⟩,
    usersReposPage := fun o p =>
      if o = "torvalds" ∧ p = 1 then .ok [repoT] else .ok [] }

/-- Witness for C8 at concrete inputs: the spec's `torvalds` scenario (404 on
the org endpoint, success through the user endpoint) plus a 500 failure that
propagates without the fallback. -/
theorem C8_org_user_fallback_witness :
    (0 < 5 ∧ upC8.orgReposPage "torvalds" 1 = .error ⟨404, "not found"⟩ ∧
      reposLoop (upC8.usersReposPage "torvalds") 5 1 [] = .ok [repoT] ∧
      (upErr 500 "oops").orgReposPage "torvalds" 1 = .error ⟨500, "oops"⟩) ∧
    get_org_repos upC8 5 "torvalds" = .ok [repoT] ∧
    get_org_repos upC8 5 "torvalds" =
      get_org_repos { upC8 with orgReposPage := upC8.usersReposPage } 5 "torvalds" ∧
    get_org_repos (upErr 500 "oops") 5 "torvalds" = .error ⟨500, "oops"⟩ := by
  have h404 := (C8_org_user_fallback upC8 5 (by decide) "torvalds"
    ⟨404, "not found"⟩ rfl).1 rfl [repoT] rfl
  have h500 := (C8_org_user_fallback (upErr 500 "oops") 5 (by decide) "torvalds"
    ⟨500, "oops"⟩ rfl).2 (by decide)
  exact ⟨⟨by decide, rfl, rfl, rfl⟩, h404.1, h404.2.1, h500.1⟩

/-! ### C10 -/

/-- C10: in the no-filter, no-default-organization case, the synthetic
"Personal Repositories" root, when the identity owns repositories, is the
first element of the returned root list (before every organization root);
when the identity owns zero repositories no such root is emitted at all,
while organization roots are present even when their repository lists are
empty. -/
theorem C10_personal_repos_root (st : Settings) (tok : String) (htok : tok ≠ "")
    (horg : st.github_org = "") (up : Upstream) (fuel : Nat)
    (orgsList : List OrgData) (huo : up.userOrgsResp = .ok orgsList)
    (personal : List RepoData) (hur : get_user_repos up fuel = .ok personal)
    (f : String → List RepoData)
    (hfetch : ∀ o ∈ orgsList, get_org_repos up fuel o.login = .ok (f o.login)) :
    (personal ≠ [] →
      get_tree st Option.none (Option.some tok) up fuel =
        .ok (build_org_tree_lightweight "Personal Repositories" personal ::
          orgsList.map (fun o => build_org_tree_lightweight o.login (f o.login)))) ∧
    (personal = [] →
      get_tree st Option.none (Option.some tok) up fuel =
        .ok (orgsList.map (fun o => build_org_tree_lightweight o.login (f o.login)))) ∧
    (∀ o ∈ orgsList, ∀ result,
      get_tree st Option.none (Option.some tok) up fuel = .ok result →
      build_org_tree_lightweight o.login (f o.login) ∈ result) := by
  have htokEq : effective_token (Option.some tok) st = Option.some tok := by
    simp [effective_token, htok]
  have hloop := tree_nodes_loop_ok up fuel f orgsList
    (if personal ≠ [] then
      [build_org_tree_lightweight "Personal Repositories" personal]
     else []) hfetch
  simp only [ne_eq, ite_not] at hloop
  have key : get_tree st Option.none (Option.some tok) up fuel =
      .ok ((if personal ≠ [] then
              [build_org_tree_lightweight "Personal Repositories" personal]
            else []) ++
        orgsList.map (fun o => build_org_tree_lightweight o.login (f o.login))) := by
    simp only [get_tree, htokEq, parse_org_list]
    simp [horg, get_user_orgs, huo, hur, hloop]
  refine ⟨?_, ?_, ?_⟩
  · intro h; rw [key]; simp [h]
  · intro h; rw [key]; simp [h]
  · intro o ho result hres
    rw [key] at hres
    have hres' := Except.ok.inj hres
    subst hres'
    exact List.mem_append_right _ (List.mem_map_of_mem _ ho)

/-- One concrete personal repository of the authenticated identity. -/
def repoP : RepoData :=
  ⟨"me", "dot", "https://github.test/me/dot", Option.none, false, Option.none, 0,
   Option.none⟩

/-- An upstream oracle for the no-filter case: one organization `acme` with
no repositories, and one personal repository. -/
def upC10 : Upstream :=
  { upEmpty with
    userOrgsResp := .ok [⟨"acme"⟩],
    userReposPage := fun p => if p = 1 then .ok [repoP] else .ok [] }

/-- An upstream oracle for the no-filter case with zero personal
repositories and one (empty) organization `acme`. -/
def upC10b : Upstream := { upEmpty with userOrgsResp := .ok [⟨"acme"⟩] }

/-- Witness for C10 at concrete inputs: with a personal repository the
synthetic root comes first; without one, only the (empty) organization root
is returned. -/
theorem C10_personal_repos_root_witness :
    ("t" ≠ "" ∧ st0.github_org = "" ∧
      upC10.userOrgsResp = .ok [⟨"acme"⟩] ∧
      get_user_repos upC10 5 = .ok [repoP] ∧
      (∀ o ∈ ([⟨"acme"⟩] : List OrgData),
        get_org_repos upC10 5 o.login = .ok []) ∧
      upC10b.userOrgsResp = .ok [⟨"acme"⟩] ∧
      get_user_repos upC10b 5 = .ok ([] : List RepoData) ∧
      (∀ o ∈ ([⟨"acme"⟩] : List OrgData),
        get_org_repos upC10b 5 o.login = .ok [])) ∧
    get_tree st0 Option.none (Option.some "t") upC10 5 =
      .ok [build_org_tree_lightweight "Personal Repositories" [repoP],
           build_org_tree_lightweight "acme" []] ∧
    get_tree st0 Option.none (Option.some "t") upC10b 5 =
      .ok [build_org_tree_lightweight "acme" []] := by
  have hf1 : ∀ o ∈ ([⟨"acme"⟩] : List OrgData),
      get_org_repos upC10 5 o.login = .ok (([] : List RepoData)) := by
    intro o ho; simp at ho; subst ho; rfl
  have hf2 : ∀ o ∈ ([⟨"acme"⟩] : List OrgData),
      get_org_repos upC10b 5 o.login = .ok (([] : List RepoData)) := by
    intro o ho; simp at ho; subst ho; rfl
  have h1 := C10_personal_repos_root st0 "t" (by decide) rfl upC10 5 [⟨"acme"⟩]
    rfl [repoP] rfl (fun _ => []) hf1
  have h2 := C10_personal_repos_root st0 "t" (by decide) rfl upC10b 5 [⟨"acme"⟩]
    rfl [] rfl (fun _ => []) hf2
  exact ⟨⟨by decide, rfl, rfl, rfl, hf1, rfl, rfl, hf2⟩,
    h1.1 (by simp), h2.2.1 rfl⟩

/-! ### C9: identifier scheme and uniqueness

The uniqueness arguments reduce every node id to a literal category tag
followed by source identifiers.  Distinctness across categories follows from
incomparability of the literal tags; distinctness within a category follows
from injectivity of string concatenation after a fixed tag, and — for the
numeric upstream ids — injectivity of the decimal rendering of `Nat`.
-/

theorem digitChar_inj_lt (a b : Nat) (ha : a < 10) (hb : b < 10)
    (h : Nat.digitChar a = Nat.digitChar b) : a = b := by
  have key : ∀ x : Fin 10, ∀ y : Fin 10,
      Nat.digitChar x.val = Nat.digitChar y.val → x = y := by decide
  have := key ⟨a, ha⟩ ⟨b, hb⟩ h
  exact congrArg Fin.val this

theorem toDigitsCore_eq_digits (f : Nat) : ∀ (n : Nat) (acc : List Char),
    0 < n → n ≤ f →
    Nat.toDigitsCore 10 f n acc =
      ((Nat.digits 10 n).map Nat.digitChar).reverse ++ acc := by
  induction f with
  | zero => intro n acc h1 h2; omega
  | succ f ih =>
    intro n acc h1 h2
    rw [Nat.toDigitsCore]
    by_cases hdiv : n / 10 = 0
    · simp only [hdiv, if_true]
      rw [Nat.digits_def' (by norm_num) h1, hdiv, Nat.digits_zero]
      simp
    · simp only [hdiv, if_false]
      have hpos : 0 < n / 10 := Nat.pos_of_ne_zero hdiv
      have hle : n / 10 ≤ f := by
        have := Nat.div_lt_self h1 (by norm_num : 1 < 10)
        omega
      rw [ih (n / 10) (Nat.digitChar (n % 10) :: acc) hpos hle]
      rw [Nat.digits_def' (by norm_num) h1]
      simp

theorem nat_repr_eq_digits (n : Nat) (h : 0 < n) :
    Nat.repr n = (((Nat.digits 10 n).map Nat.digitChar).reverse).asString := by
  unfold Nat.repr Nat.toDigits
  rw [toDigitsCore_eq_digits (n + 1) n [] h (by omega)]
  simp

theorem map_digitChar_inj : ∀ (l1 l2 : List Nat),
    (∀ x ∈ l1, x < 10) → (∀ x ∈ l2, x < 10) →
    l1.map Nat.digitChar = l2.map Nat.digitChar → l1 = l2
  | [], [], _, _, _ => rfl
  | [], _ :: _, _, _, h => by simp at h
  | _ :: _, [], _, _, h => by simp at h
  | a :: l1, b :: l2, h1, h2, h => by
    simp only [List.map_cons, List.cons.injEq] at h
    have ha := h1 a (by simp)
    have hb := h2 b (by simp)
    have := digitChar_inj_lt a b ha hb h.1
    subst this
    rw [map_digitChar_inj l1 l2 (fun x hx => h1 x (by simp [hx]))
      (fun x hx => h2 x (by simp [hx])) h.2]

theorem nat_repr_injective : Function.Injective Nat.repr := by
  intro m n h
  have hdata : ∀ k : Nat, 0 < k →
      (Nat.repr k).data = ((Nat.digits 10 k).map Nat.digitChar).reverse := by
    intro k hk
    rw [nat_repr_eq_digits k hk]
    rfl
  rcases Nat.eq_zero_or_pos m with rfl | hm <;>
    rcases Nat.eq_zero_or_pos n with rfl | hn
  · rfl
  · exfalso
    have h0 : (Nat.repr 0).data = ['0'] := rfl
    have hd := congrArg String.data h
    rw [h0, hdata n hn] at hd
    have hrev := congrArg List.reverse hd
    simp only [List.reverse_reverse] at hrev
    have : (Nat.digits 10 n).map Nat.digitChar = ['0'] := by
      simpa using hrev.symm
    obtain ⟨d, hds, hd0⟩ : ∃ d, Nat.digits 10 n = [d] ∧ Nat.digitChar d = '0' := by
      cases hds : Nat.digits 10 n with
      | nil => rw [hds] at this; simp at this
      | cons x xs =>
        rw [hds] at this
        cases xs with
        | nil => simp at this; exact ⟨x, rfl, this⟩
        | cons y ys => simp at this
    have hdlt : d < 10 := Nat.digits_lt_base (by norm_num) (by rw [hds]; simp)
    have : d = 0 := digitChar_inj_lt d 0 hdlt (by norm_num) (by simpa using hd0)
    subst this
    have hvv := Nat.digits_def' (by norm_num : 1 < 10) hn
    rw [hds] at hvv
    have h1 : 0 = n % 10 := (List.cons.injEq _ _ _ _).mp hvv |>.1
    have h2 : Nat.digits 10 (n / 10) = [] :=
      ((List.cons.injEq _ _ _ _).mp hvv |>.2).symm
    have h3 : n / 10 = 0 := Nat.digits_eq_nil_iff_eq_zero.mp h2
    omega
  · exfalso
    have h0 : (Nat.repr 0).data = ['0'] := rfl
    have hd := congrArg String.data h
    rw [h0, hdata m hm] at hd
    have hrev := congrArg List.reverse hd.symm
    simp only [List.reverse_reverse] at hrev
    have : (Nat.digits 10 m).map Nat.digitChar = ['0'] := by
      simpa using hrev.symm
    obtain ⟨d, hds, hd0⟩ : ∃ d, Nat.digits 10 m = [d] ∧ Nat.digitChar d = '0' := by
      cases hds : Nat.digits 10 m with
      | nil => rw [hds] at this; simp at this
      | cons x xs =>
        rw [hds] at this
        cases xs with
        | nil => simp at this; exact ⟨x, rfl, this⟩
        | cons y ys => simp at this
    have hdlt : d < 10 := Nat.digits_lt_base (by norm_num) (by rw [hds]; simp)
    have : d = 0 := digitChar_inj_lt d 0 hdlt (by norm_num) (by simpa using hd0)
    subst this
    have hvv := Nat.digits_def' (by norm_num : 1 < 10) hm
    rw [hds] at hvv
    have h1 : 0 = m % 10 := (List.cons.injEq _ _ _ _).mp hvv |>.1
    have h2 : Nat.digits 10 (m / 10) = [] :=
      ((List.cons.injEq _ _ _ _).mp hvv |>.2).symm
    have h3 : m / 10 = 0 := Nat.digits_eq_nil_iff_eq_zero.mp h2
    omega
  · have hd := congrArg String.data h
    rw [hdata m hm, hdata n hn] at hd
    have hrev := congrArg List.reverse hd
    simp only [List.reverse_reverse] at hrev
    have hmn := map_digitChar_inj (Nat.digits 10 m) (Nat.digits 10 n)
      (fun x hx => Nat.digits_lt_base (by norm_num) hx)
      (fun x hx => Nat.digits_lt_base (by norm_num) hx) hrev
    exact Nat.digits_inj_iff.mp hmn

theorem nat_toString_injective : Function.Injective (fun n : Nat => toString n) :=
  nat_repr_injective

/-- Two strings neither of which is a character-prefix of the other.  All
pairs of distinct id tags used by the identifier scheme are incomparable in
this sense. -/
def strIncomp (p q : String) : Prop :=
  ¬ (p.data <+: q.data) ∧ ¬ (q.data <+: p.data)

instance strIncomp_decidable (p q : String) : Decidable (strIncomp p q) :=
  inferInstanceAs (Decidable (¬ (p.data <+: q.data) ∧ ¬ (q.data <+: p.data)))

/-- Concatenation after a fixed string is cancellative. -/
theorem str_append_left_cancel {p a b : String} (h : p ++ a = p ++ b) : a = b := by
  have hd := congrArg String.data h
  rw [String.data_append, String.data_append] at hd
  exact String.ext (List.append_cancel_left hd)

/-- Concatenation after a fixed string is injective. -/
theorem str_append_left_injective (p : String) :
    Function.Injective (fun s => p ++ s) := fun _ _ h => str_append_left_cancel h

/-- Strings starting with incomparable prefixes are distinct. -/
theorem ne_of_strIncomp {p q : String} (h : strIncomp p q) (a b : String) :
    p ++ a ≠ q ++ b := by
  intro heq
  have hd := congrArg String.data heq
  rw [String.data_append, String.data_append] at hd
  rcases List.append_eq_append_iff.mp hd with ⟨a', ha', _⟩ | ⟨c', hc', _⟩
  · exact h.1 ⟨a', ha'.symm⟩
  · exact h.2 ⟨c', hc'.symm⟩

/-- The id strings contributed by one category of `build_repo_details`: the
container id followed by one tagged id per child leaf. -/
def catIds (cid pl : String) (keys : List String) : List String :=
  cid :: keys.map (fun k => pl ++ k)

/-- A category's ids are pairwise distinct when its two tags are
incomparable and its keys are distinct. -/
theorem catIds_nodup (pc pl s : String) (keys : List String)
    (hincomp : strIncomp pc pl) (hkeys : keys.Nodup) :
    (catIds (pc ++ s) pl keys).Nodup := by
  unfold catIds
  refine List.nodup_cons.mpr ⟨?_, hkeys.map (str_append_left_injective pl)⟩
  intro hmem
  obtain ⟨k, _, hk⟩ := List.mem_map.mp hmem
  exact ne_of_strIncomp hincomp s k hk.symm

/-- Two categories with pairwise incomparable tags contribute disjoint id
sets. -/
theorem catIds_disjoint (pc1 pl1 pc2 pl2 s1 s2 : String)
    (k1 k2 : List String)
    (h1 : strIncomp pc1 pc2) (h2 : strIncomp pc1 pl2)
    (h3 : strIncomp pl1 pc2) (h4 : strIncomp pl1 pl2) :
    List.Disjoint (catIds (pc1 ++ s1) pl1 k1) (catIds (pc2 ++ s2) pl2 k2) := by
  intro x hx hy
  unfold catIds at hx hy
  rcases List.mem_cons.mp hx with rfl | hx'
  · rcases List.mem_cons.mp hy with heq | hy'
    · exact ne_of_strIncomp h1 s1 s2 heq
    · obtain ⟨k, _, hk⟩ := List.mem_map.mp hy'
      exact ne_of_strIncomp h2 s1 k hk.symm
  · obtain ⟨k, _, hk⟩ := List.mem_map.mp hx'
    subst hk
    rcases List.mem_cons.mp hy with heq | hy'
    · exact ne_of_strIncomp h3 k s2 heq
    · obtain ⟨k', _, hk'⟩ := List.mem_map.mp hy'
      exact ne_of_strIncomp h4 k k' hk'.symm

/-- `collectIds` on a leaf (no children) is its single id. -/
theorem collectIds_leaf (n : TreeNode) (h : n.children = []) :
    collectIds n = [n.id] := by
  cases n with
  | mk i nm t s u c m hc il =>
    have hcn : c = [] := h
    subst hcn
    rfl

/-- `collectIdsList` unfolding on cons. -/
theorem collectIdsList_cons (n : TreeNode) (ns : List TreeNode) :
    collectIdsList (n :: ns) = collectIds n ++ collectIdsList ns := rfl

/-- `collectIdsList` unfolding on nil. -/
theorem collectIdsList_nil : collectIdsList [] = [] := rfl

/-- `collectIdsList` distributes over append. -/
theorem collectIdsList_append (l1 l2 : List TreeNode) :
    collectIdsList (l1 ++ l2) = collectIdsList l1 ++ collectIdsList l2 := by
  induction l1 with
  | nil => rfl
  | cons n ns ih => simp [collectIdsList_cons, ih]

/-- `collectIdsList` over a list of leaves is the list of their ids. -/
theorem collectIdsList_map_leaf {α : Type} (g : α → TreeNode)
    (hg : ∀ x, (g x).children = []) (l : List α) :
    collectIdsList (l.map g) = l.map (fun x => (g x).id) := by
  induction l with
  | nil => rfl
  | cons a l ih =>
    rw [List.map_cons, List.map_cons, collectIdsList_cons,
      collectIds_leaf (g a) (hg a), ih]
    rfl

/-- The id list of a shallow organization tree: the organization id followed
by one repository id per repository, each derived only from owner login and
repository name. -/
theorem build_org_ids (org_name : String) (repos : List RepoData) :
    collectIds (build_org_tree_lightweight org_name repos) =
      ("org-" ++ org_name) ::
        repos.map (fun r => "repo-" ++ r.owner_login ++ "-" ++ r.name) := by
  show ("org-" ++ org_name) :: collectIdsList (repos.map repoNode) = _
  rw [collectIdsList_map_leaf repoNode (fun r => rfl)]
  rfl

/-- `collectIds` unfolding on a constructed node. -/
theorem collectIds_mk (i n t : String) (s u : Option String)
    (c : List TreeNode) (m : List (String × PyValue)) (h l : Bool) :
    collectIds (TreeNode.mk i n t s u c m h l) = i :: collectIdsList c := rfl

/-- The workflow leaf id pattern. -/
theorem workflowNode_id (w : WorkflowData) :
    (workflowNode w).id = "workflow-" ++ toString w.id := rfl

/-- The workflow-run leaf id pattern. -/
theorem runNode_id (r : RunData) : (runNode r).id = "run-" ++ toString r.id := rfl

/-- The runner leaf id pattern. -/
theorem runnerNode_id (r : RunnerData) :
    (runnerNode r).id = "runner-" ++ toString r.id := rfl

/-- The branch leaf id pattern. -/
theorem branchNode_id (owner repo : String) (b : BranchData) :
    (branchNode owner repo b).id =
      "branch-" ++ owner ++ "-" ++ repo ++ "-" ++ b.name := rfl

/-- The pull-request leaf id pattern. -/
theorem prNode_id (p : PRData) : (prNode p).id = "pr-" ++ toString p.id := rfl

/-- The issue leaf id pattern. -/
theorem issueNode_id (i : IssueData) :
    (issueNode i).id = "issue-" ++ toString i.id := rfl

/-- Ids contributed by the workflows container. -/
theorem workflowsContainer_ids (owner repo : String) (ws : List WorkflowData) :
    collectIds (workflowsContainer owner repo ws) =
      catIds ("workflows-" ++ (owner ++ ("-" ++ repo))) "workflow-"
        ((ws.take 20).map (fun w => toString w.id)) := by
  show ("workflows-" ++ owner ++ "-" ++ repo) ::
      collectIdsList ((ws.take 20).map workflowNode) = _
  rw [collectIdsList_map_leaf workflowNode (fun _ => rfl)]
  simp [catIds, List.map_map, String.append_assoc, workflowNode_id,
    Function.comp_def]

/-- Ids contributed by the workflow-runs container. -/
theorem runsContainer_ids (owner repo : String) (rs : List RunData) :
    collectIds (runsContainer owner repo rs) =
      catIds ("runs-" ++ (owner ++ ("-" ++ repo))) "run-"
        ((rs.take 10).map (fun r => toString r.id)) := by
  show ("runs-" ++ owner ++ "-" ++ repo) ::
      collectIdsList ((rs.take 10).map runNode) = _
  rw [collectIdsList_map_leaf runNode (fun _ => rfl)]
  simp [catIds, List.map_map, String.append_assoc, runNode_id, Function.comp_def]

/-- Ids contributed by the runners container (uncapped children). -/
theorem runnersContainer_ids (owner repo : String) (rns : List RunnerData) :
    collectIds (runnersContainer owner repo rns) =
      catIds ("runners-" ++ (owner ++ ("-" ++ repo))) "runner-"
        (rns.map (fun r => toString r.id)) := by
  show ("runners-" ++ owner ++ "-" ++ repo) ::
      collectIdsList (rns.map runnerNode) = _
  rw [collectIdsList_map_leaf runnerNode (fun _ => rfl)]
  simp [catIds, List.map_map, String.append_assoc, runnerNode_id,
    Function.comp_def]

/-- Ids contributed by the branches container. -/
theorem branchesContainer_ids (owner repo : String) (bs : List BranchData) :
    collectIds (branchesContainer owner repo bs) =
      catIds ("branches-" ++ (owner ++ ("-" ++ repo))) "branch-"
        ((bs.take 20).map
          (fun b => owner ++ ("-" ++ (repo ++ ("-" ++ b.name))))) := by
  show ("branches-" ++ owner ++ "-" ++ repo) ::
      collectIdsList ((bs.take 20).map (branchNode owner repo)) = _
  rw [collectIdsList_map_leaf (branchNode owner repo) (fun _ => rfl)]
  simp [catIds, List.map_map, String.append_assoc, branchNode_id,
    Function.comp_def]

/-- Ids contributed by the pull-requests container. -/
theorem prsContainer_ids (owner repo : String) (ps : List PRData) :
    collectIds (prsContainer owner repo ps) =
      catIds ("prs-" ++ (owner ++ ("-" ++ repo))) "pr-"
        ((ps.take 20).map (fun p => toString p.id)) := by
  show ("prs-" ++ owner ++ "-" ++ repo) ::
      collectIdsList ((ps.take 20).map prNode) = _
  rw [collectIdsList_map_leaf prNode (fun _ => rfl)]
  simp [catIds, List.map_map, String.append_assoc, prNode_id, Function.comp_def]

/-- Ids contributed by the issues container. -/
theorem issuesContainer_ids (owner repo : String) (iss : List IssueData) :
    collectIds (issuesContainer owner repo iss) =
      catIds ("issues-" ++ (owner ++ ("-" ++ repo))) "issue-"
        ((iss.take 20).map (fun i => toString i.id)) := by
  show ("issues-" ++ owner ++ "-" ++ repo) ::
      collectIdsList ((iss.take 20).map issueNode) = _
  rw [collectIdsList_map_leaf issueNode (fun _ => rfl)]
  simp [catIds, List.map_map, String.append_assoc, issueNode_id,
    Function.comp_def]


/-- The full id list of a repository-detail response, category by
category. -/
theorem build_repo_details_ids (up : Upstream) (owner repo_name : String) :
    collectIdsList (build_repo_details up owner repo_name) =
      (if get_workflows up owner repo_name = [] then [] else
        catIds ("workflows-" ++ (owner ++ ("-" ++ repo_name))) "workflow-"
          (((get_workflows up owner repo_name).take 20).map
            (fun w => toString w.id))) ++
      ((if get_workflow_runs up owner repo_name 10 = [] then [] else
        catIds ("runs-" ++ (owner ++ ("-" ++ repo_name))) "run-"
          (((get_workflow_runs up owner repo_name 10).take 10).map
            (fun r => toString r.id))) ++
      ((if get_runners up owner repo_name = [] then [] else
        catIds ("runners-" ++ (owner ++ ("-" ++ repo_name))) "runner-"
          ((get_runners up owner repo_name).map (fun r => toString r.id))) ++
      ((if get_branches up owner repo_name = [] then [] else
        catIds ("branches-" ++ (owner ++ ("-" ++ repo_name))) "branch-"
          (((get_branches up owner repo_name).take 20).map
            (fun b => owner ++ ("-" ++ (repo_name ++ ("-" ++ b.name)))))) ++
      ((if get_pull_requests up owner repo_name = [] then [] else
        catIds ("prs-" ++ (owner ++ ("-" ++ repo_name))) "pr-"
          (((get_pull_requests up owner repo_name).take 20).map
            (fun p => toString p.id))) ++
      (if get_issues up owner repo_name = [] then [] else
        catIds ("issues-" ++ (owner ++ ("-" ++ repo_name))) "issue-"
          (((get_issues up owner repo_name).take 20).map
            (fun i => toString i.id))))))) := by
  simp only [build_repo_details, collectIdsList_append,
    apply_ite collectIdsList, collectIdsList_nil, collectIdsList_cons]
  simp [workflowsContainer_ids, runsContainer_ids, runnersContainer_ids,
    branchesContainer_ids, prsContainer_ids, issuesContainer_ids]

/-- Keys rendered from distinct numeric ids (after a cap) are distinct. -/
theorem keys_toString_nodup {α : Type} (l : List α) (g : α → Nat) (n : Nat)
    (h : (l.map g).Nodup) :
    ((l.take n).map (fun x => toString (g x))).Nodup := by
  have h1 : (l.take n).map (fun x => toString (g x)) =
      ((l.map g).take n).map (fun m => toString m) := by
    rw [← List.map_take, List.map_map]
    rfl
  rw [h1]
  exact ((List.take_sublist n (l.map g)).nodup h).map nat_toString_injective

/-- Keys rendered from distinct numeric ids (uncapped) are distinct. -/
theorem keys_toString_nodup_all {α : Type} (l : List α) (g : α → Nat)
    (h : (l.map g).Nodup) :
    (l.map (fun x => toString (g x))).Nodup := by
  have h1 : l.map (fun x => toString (g x)) =
      (l.map g).map (fun m => toString m) := by
    rw [List.map_map]
    rfl
  rw [h1]
  exact h.map nat_toString_injective

/-- Branch keys built from distinct branch names are distinct. -/
theorem branch_keys_nodup (owner repo : String) (bs : List BranchData) (n : Nat)
    (h : (bs.map BranchData.name).Nodup) :
    ((bs.take n).map
      (fun b => owner ++ ("-" ++ (repo ++ ("-" ++ b.name))))).Nodup := by
  have h1 : (bs.take n).map
        (fun b => owner ++ ("-" ++ (repo ++ ("-" ++ b.name)))) =
      ((bs.map BranchData.name).take n).map
        (fun s => owner ++ ("-" ++ (repo ++ ("-" ++ s)))) := by
    rw [← List.map_take, List.map_map]
    rfl
  rw [h1]
  refine ((List.take_sublist n _).nodup h).map ?_
  intro a b hab
  have h2 := str_append_left_cancel hab
  have h3 := str_append_left_cancel h2
  have h4 := str_append_left_cancel h3
  exact str_append_left_cancel h4

/-- Within one shallow organization response all ids are distinct, provided
the repositories share one owner login and have pairwise distinct names. -/
theorem build_org_ids_nodup (org_name ro : String) (repos : List RepoData)
    (hown : ∀ r ∈ repos, r.owner_login = ro)
    (hnames : (repos.map RepoData.name).Nodup) :
    (collectIds (build_org_tree_lightweight org_name repos)).Nodup := by
  rw [build_org_ids]
  refine List.nodup_cons.mpr ⟨?_, ?_⟩
  · intro hmem
    obtain ⟨r, _, hr⟩ := List.mem_map.mp hmem
    have hassoc : "repo-" ++ r.owner_login ++ "-" ++ r.name =
        "repo-" ++ (r.owner_login ++ ("-" ++ r.name)) := by
      rw [String.append_assoc, String.append_assoc]
    rw [hassoc] at hr
    exact ne_of_strIncomp (show strIncomp "repo-" "org-" by decide) _ _ hr
  · refine List.Nodup.map_on ?_ (List.Nodup.of_map _ hnames)
    intro x hx y hy hxy
    rw [hown x hx, hown y hy] at hxy
    exact List.inj_on_of_nodup_map hnames hx hy (str_append_left_cancel hxy)

/-- Within one repository-detail response all ids are distinct, provided
each category's upstream numeric ids (branch names for branches) are
pairwise distinct. -/
theorem build_repo_details_ids_nodup (up : Upstream) (owner repo_name : String)
    (hw : ((get_workflows up owner repo_name).map (fun w => w.id)).Nodup)
    (hr : ((get_workflow_runs up owner repo_name 10).map (fun r => r.id)).Nodup)
    (hn : ((get_runners up owner repo_name).map (fun r => r.id)).Nodup)
    (hb : ((get_branches up owner repo_name).map BranchData.name).Nodup)
    (hp : ((get_pull_requests up owner repo_name).map (fun p => p.id)).Nodup)
    (hi : ((get_issues up owner repo_name).map (fun i => i.id)).Nodup) :
    (collectIdsList (build_repo_details up owner repo_name)).Nodup := by
  have k1 := keys_toString_nodup (get_workflows up owner repo_name)
    (fun w => w.id) 20 hw
  have k2 := keys_toString_nodup (get_workflow_runs up owner repo_name 10)
    (fun r => r.id) 10 hr
  have k3 := keys_toString_nodup_all (get_runners up owner repo_name)
    (fun r => r.id) hn
  have k4 := branch_keys_nodup owner repo_name
    (get_branches up owner repo_name) 20 hb
  have k5 := keys_toString_nodup (get_pull_requests up owner repo_name)
    (fun p => p.id) 20 hp
  have k6 := keys_toString_nodup (get_issues up owner repo_name)
    (fun i => i.id) 20 hi
  rw [build_repo_details_ids]
  generalize hK1 : ((get_workflows up owner repo_name).take 20).map
    (fun w => toString w.id) = K1 at *
  generalize hK2 : ((get_workflow_runs up owner repo_name 10).take 10).map
    (fun r => toString r.id) = K2 at *
  generalize hK3 : (get_runners up owner repo_name).map
    (fun r => toString r.id) = K3 at *
  generalize hK4 : ((get_branches up owner repo_name).take 20).map
    (fun b => owner ++ ("-" ++ (repo_name ++ ("-" ++ b.name)))) = K4 at *
  generalize hK5 : ((get_pull_requests up owner repo_name).take 20).map
    (fun p => toString p.id) = K5 at *
  generalize hK6 : ((get_issues up owner repo_name).take 20).map
    (fun i => toString i.id) = K6 at *
  generalize hs0 : owner ++ ("-" ++ repo_name) = s0
  have n1 := catIds_nodup "workflows-" "workflow-" s0 K1 (by decide) k1
  have n2 := catIds_nodup "runs-" "run-" s0 K2 (by decide) k2
  have n3 := catIds_nodup "runners-" "runner-" s0 K3 (by decide) k3
  have n4 := catIds_nodup "branches-" "branch-" s0 K4 (by decide) k4
  have n5 := catIds_nodup "prs-" "pr-" s0 K5 (by decide) k5
  have n6 := catIds_nodup "issues-" "issue-" s0 K6 (by decide) k6
  have d12 := catIds_disjoint "workflows-" "workflow-" "runs-" "run-" s0 s0
    K1 K2 (by decide) (by decide) (by decide) (by decide)
  have d13 := catIds_disjoint "workflows-" "workflow-" "runners-" "runner-"
    s0 s0 K1 K3 (by decide) (by decide) (by decide) (by decide)
  have d14 := catIds_disjoint "workflows-" "workflow-" "branches-" "branch-"
    s0 s0 K1 K4 (by decide) (by decide) (by decide) (by decide)
  have d15 := catIds_disjoint "workflows-" "workflow-" "prs-" "pr-" s0 s0
    K1 K5 (by decide) (by decide) (by decide) (by decide)
  have d16 := catIds_disjoint "workflows-" "workflow-" "issues-" "issue-"
    s0 s0 K1 K6 (by decide) (by decide) (by decide) (by decide)
  have d23 := catIds_disjoint "runs-" "run-" "runners-" "runner-" s0 s0
    K2 K3 (by decide) (by decide) (by decide) (by decide)
  have d24 := catIds_disjoint "runs-" "run-" "branches-" "branch-" s0 s0
    K2 K4 (by decide) (by decide) (by decide) (by decide)
  have d25 := catIds_disjoint "runs-" "run-" "prs-" "pr-" s0 s0
    K2 K5 (by decide) (by decide) (by decide) (by decide)
  have d26 := catIds_disjoint "runs-" "run-" "issues-" "issue-" s0 s0
    K2 K6 (by decide) (by decide) (by decide) (by decide)
  have d34 := catIds_disjoint "runners-" "runner-" "branches-" "branch-"
    s0 s0 K3 K4 (by decide) (by decide) (by decide) (by decide)
  have d35 := catIds_disjoint "runners-" "runner-" "prs-" "pr-" s0 s0
    K3 K5 (by decide) (by decide) (by decide) (by decide)
  have d36 := catIds_disjoint "runners-" "runner-" "issues-" "issue-" s0 s0
    K3 K6 (by decide) (by decide) (by decide) (by decide)
  have d45 := catIds_disjoint "branches-" "branch-" "prs-" "pr-" s0 s0
    K4 K5 (by decide) (by decide) (by decide) (by decide)
  have d46 := catIds_disjoint "branches-" "branch-" "issues-" "issue-" s0 s0
    K4 K6 (by decide) (by decide) (by decide) (by decide)
  have d56 := catIds_disjoint "prs-" "pr-" "issues-" "issue-" s0 s0
    K5 K6 (by decide) (by decide) (by decide) (by decide)
  have n56 := n5.append n6 d56
  have n456 := n4.append n56 (List.disjoint_append_right.mpr ⟨d45, d46⟩)
  have n3456 := n3.append n456 (List.disjoint_append_right.mpr
    ⟨d34, List.disjoint_append_right.mpr ⟨d35, d36⟩⟩)
  have n23456 := n2.append n3456 (List.disjoint_append_right.mpr
    ⟨d23, List.disjoint_append_right.mpr
      ⟨d24, List.disjoint_append_right.mpr ⟨d25, d26⟩⟩⟩)
  have hfull := n1.append n23456 (List.disjoint_append_right.mpr
    ⟨d12, List.disjoint_append_right.mpr
      ⟨d13, List.disjoint_append_right.mpr
        ⟨d14, List.disjoint_append_right.mpr ⟨d15, d16⟩⟩⟩⟩)
  refine List.Sublist.nodup ?_ hfull
  refine List.Sublist.append ?_ (List.Sublist.append ?_
    (List.Sublist.append ?_ (List.Sublist.append ?_
      (List.Sublist.append ?_ ?_)))) <;>
    (split
     · exact List.nil_sublist _
     · exact List.Sublist.refl _)

/-- C9: node identifiers are deterministic — each id is a pure function of
the node type and its source identifiers, following the fixed scheme
(org-login, repo-owner-name, category-owner-name for containers,
kind-numeric-id for leaves, branch-owner-name-branchname for branches) — so
two builds over identical upstream data render identical ids; and within one
response (one shallow organization tree, one repository-detail list) the ids
are pairwise distinct, given the upstream well-formedness the scheme relies
on (one owner login and distinct repository names per root; distinct numeric
ids per category; distinct branch names). -/
theorem C9_deterministic_unique_ids
    (org_name ro : String) (repos : List RepoData)
    (hown : ∀ r ∈ repos, r.owner_login = ro)
    (hnames : (repos.map RepoData.name).Nodup)
    (up : Upstream) (owner repo_name : String)
    (hw : ((get_workflows up owner repo_name).map (fun w => w.id)).Nodup)
    (hr : ((get_workflow_runs up owner repo_name 10).map (fun r => r.id)).Nodup)
    (hn : ((get_runners up owner repo_name).map (fun r => r.id)).Nodup)
    (hb : ((get_branches up owner repo_name).map BranchData.name).Nodup)
    (hp : ((get_pull_requests up owner repo_name).map (fun p => p.id)).Nodup)
    (hi : ((get_issues up owner repo_name).map (fun i => i.id)).Nodup) :
    (build_org_tree_lightweight org_name repos).id = "org-" ++ org_name ∧
    (∀ r, (repoNode r).id = "repo-" ++ r.owner_login ++ "-" ++ r.name) ∧
    (∀ o rn ws, (workflowsContainer o rn ws).id =
      "workflows-" ++ o ++ "-" ++ rn) ∧
    (∀ w, (workflowNode w).id = "workflow-" ++ toString w.id) ∧
    (∀ o rn rs, (runsContainer o rn rs).id = "runs-" ++ o ++ "-" ++ rn) ∧
    (∀ r, (runNode r).id = "run-" ++ toString r.id) ∧
    (∀ o rn rners, (runnersContainer o rn rners).id =
      "runners-" ++ o ++ "-" ++ rn) ∧
    (∀ r, (runnerNode r).id = "runner-" ++ toString r.id) ∧
    (∀ o rn bs, (branchesContainer o rn bs).id =
      "branches-" ++ o ++ "-" ++ rn) ∧
    (∀ o rn b, (branchNode o rn b).id =
      "branch-" ++ o ++ "-" ++ rn ++ "-" ++ b.name) ∧
    (∀ o rn ps, (prsContainer o rn ps).id = "prs-" ++ o ++ "-" ++ rn) ∧
    (∀ p, (prNode p).id = "pr-" ++ toString p.id) ∧
    (∀ o rn iss, (issuesContainer o rn iss).id =
      "issues-" ++ o ++ "-" ++ rn) ∧
    (∀ i, (issueNode i).id = "issue-" ++ toString i.id) ∧
    collectIds (build_org_tree_lightweight org_name repos) =
      ("org-" ++ org_name) ::
        repos.map (fun r => "repo-" ++ r.owner_login ++ "-" ++ r.name) ∧
    (collectIds (build_org_tree_lightweight org_name repos)).Nodup ∧
    (collectIdsList (build_repo_details up owner repo_name)).Nodup :=
  ⟨rfl, fun _ => rfl, fun _ _ _ => rfl, fun _ => rfl, fun _ _ _ => rfl,
   fun _ => rfl, fun _ _ _ => rfl, fun _ => rfl, fun _ _ _ => rfl,
   fun _ _ _ => rfl, fun _ _ _ => rfl, fun _ => rfl, fun _ _ _ => rfl,
   fun _ => rfl, build_org_ids org_name repos,
   build_org_ids_nodup org_name ro repos hown hnames,
   build_repo_details_ids_nodup up owner repo_name hw hr hn hb hp hi⟩

/-- A second concrete repository owned by `acme`. -/
def repoA2 : RepoData :=
  ⟨"acme", "b", "https://github.test/acme/b", Option.none, false, Option.none, 0,
   Option.none⟩

/-- An upstream oracle with small, well-formed detail data for every
category (distinct numeric ids, distinct branch names). -/
def upC9 : Upstream :=
  { upEmpty with
    workflowsResp := fun _ _ =>
      .ok [⟨1, "w1", Option.none, Option.none, Option.none⟩,
           ⟨2, "w2", Option.none, Option.none, Option.none⟩],
    workflowRunsResp := fun _ _ _ =>
      .ok [⟨7, "r", 1, Option.none, Option.none, Option.none, Option.none,
            Option.none⟩],
    runnersResp := fun _ _ =>
      .ok [⟨3, "ru", Option.none, Option.none, Option.none⟩],
    branchesResp := fun _ _ => .ok bs3,
    pullsResp := fun _ _ =>
      .ok [⟨9, 1, "p", Option.none, Option.none, Option.none, Option.none,
            false⟩],
    issuesResp := fun _ _ =>
      .ok [⟨11, 1, "i", Option.none, Option.none, Option.none, Option.none,
            false⟩] }

/-- Witness for C9 at concrete inputs: two repositories under `acme` and a
fully populated detail response, with all ids pairwise distinct. -/
theorem C9_deterministic_unique_ids_witness :
    ((∀ r ∈ [repoA, repoA2], r.owner_login = "acme") ∧
      ([repoA, repoA2].map RepoData.name).Nodup ∧
      ((get_workflows upC9 "acme" "a").map (fun w => w.id)).Nodup ∧
      ((get_workflow_runs upC9 "acme" "a" 10).map (fun r => r.id)).Nodup ∧
      ((get_runners upC9 "acme" "a").map (fun r => r.id)).Nodup ∧
      ((get_branches upC9 "acme" "a").map BranchData.name).Nodup ∧
      ((get_pull_requests upC9 "acme" "a").map (fun p => p.id)).Nodup ∧
      ((get_issues upC9 "acme" "a").map (fun i => i.id)).Nodup) ∧
    collectIds (build_org_tree_lightweight "acme" [repoA, repoA2]) =
      ("org-" ++ "acme") ::
        [repoA, repoA2].map (fun r => "repo-" ++ r.owner_login ++ "-" ++ r.name) ∧
    (collectIds (build_org_tree_lightweight "acme" [repoA, repoA2])).Nodup ∧
    (collectIdsList (build_repo_details upC9 "acme" "a")).Nodup := by
  have h := C9_deterministic_unique_ids "acme" "acme" [repoA, repoA2]
    (by decide) (by decide) upC9 "acme" "a" (by decide) (by decide)
    (by decide) (by decide) (by decide) (by decide)
  obtain ⟨-, -, -, -, -, -, -, -, -, -, -, -, -, -, heq, hsh, hdet⟩ := h
  exact ⟨⟨by decide, by decide, by decide, by decide, by decide, by decide,
    by decide, by decide⟩, heq, hsh, hdet⟩
